import Mathlib

/-!
# Lightly widget style: frame shadows, blur regions and decoration buttons

A shallow embedding of `kstyle/breezeframeshadow.cpp` (namespace `Breeze`),
`kstyle/lightlyblurhelper.cpp` and `kdecoration/lightlybutton.cpp` (namespace
`Lightly`).

Toolkit objects are represented by the observations the code makes on them.
Integers of the toolkit (`int` coordinates, sizes, enum values) are unbounded
`Int`: the modelled code only adds and subtracts widget coordinates and doubles
a radius.  `qreal` values are the rationals they denote: the frame shadow only
stores and compares them; the button multiplies an opacity by 32, which is
exact in binary floating point, or by an alpha value, where the product is
rounded to the nearest double (`roundToDouble`) before it is truncated.
-/

/-! ## Toolkit geometry -/

/-- A point `QPoint(x, y)`. -/
structure QPoint where
  x : Int
  y : Int
deriving DecidableEq, Repr

/-- A size `QSize(width, height)`. -/
structure QSize where
  width : Int
  height : Int
deriving DecidableEq, Repr

/-- A rectangle stored, like the toolkit's `QRect`, by its inclusive corner
coordinates: `x2 = x1 + width - 1` and `y2 = y1 + height - 1`. -/
structure QRect where
  x1 : Int
  y1 : Int
  x2 : Int
  y2 : Int
deriving DecidableEq, Repr

namespace QRect

/-- The default-constructed rectangle `QRect()`. -/
def null : QRect := ⟨0, 0, -1, -1⟩

/-- The rectangle `QRect(x, y, width, height)`. -/
def ofSize (x y w h : Int) : QRect := ⟨x, y, x + w - 1, y + h - 1⟩

/-- The rectangle `QRect(topLeft, size)`. -/
def ofPosSize (p : QPoint) (sz : QSize) : QRect :=
  ⟨p.x, p.y, p.x + sz.width - 1, p.y + sz.height - 1⟩

def topLeft (r : QRect) : QPoint := ⟨r.x1, r.y1⟩

def x (r : QRect) : Int := r.x1
def y (r : QRect) : Int := r.y1
def width (r : QRect) : Int := r.x2 - r.x1 + 1
def height (r : QRect) : Int := r.y2 - r.y1 + 1
def size (r : QRect) : QSize := ⟨r.width, r.height⟩

def right (r : QRect) : Int := r.x2
def bottom (r : QRect) : Int := r.y2
def setLeft (r : QRect) (pos : Int) : QRect := { r with x1 := pos }
def setTop (r : QRect) (pos : Int) : QRect := { r with y1 := pos }
def setWidth (r : QRect) (w : Int) : QRect := { r with x2 := r.x1 + w - 1 }
def setHeight (r : QRect) (h : Int) : QRect := { r with y2 := r.y1 + h - 1 }

/-- `QRect::adjust(dx1, dy1, dx2, dy2)`, returning the adjusted rectangle. -/
def adjust (r : QRect) (dx1 dy1 dx2 dy2 : Int) : QRect :=
  ⟨r.x1 + dx1, r.y1 + dy1, r.x2 + dx2, r.y2 + dy2⟩

/-- `QRect::translated(offset)`. -/
def translated (r : QRect) (offset : QPoint) : QRect :=
  ⟨r.x1 + offset.x, r.y1 + offset.y, r.x2 + offset.x, r.y2 + offset.y⟩

/-- `QRect::isEmpty()`: no point lies inside. -/
def isEmpty (r : QRect) : Bool := decide (r.x1 > r.x2) || decide (r.y1 > r.y2)

/-- `QRect::contains(QPoint(px, py))` for the inclusive corner convention. -/
def contains (r : QRect) (px py : Int) : Bool :=
  decide (r.x1 ≤ px) && decide (px ≤ r.x2) && decide (r.y1 ≤ py) && decide (py ≤ r.y2)

/-- The points of a rectangle, row by row; none when it is empty. -/
def points (r : QRect) : List (Int × Int) :=
  (List.range (r.height.toNat)).flatMap fun (j : Nat) =>
    (List.range (r.width.toNat)).map fun (i : Nat) => (r.x1 + (i : Int), r.y1 + (j : Int))

end QRect

/-- A region of the plane, kept as the sequence of rectangles that were united
into it.  The point set of the region is the union of these rectangles; the
toolkit's `QRegion` keeps the same point set in a normal form, so that its
emptiness test and its comparison are those of the point sets. -/
structure QRegion where
  rects : List QRect
deriving DecidableEq, Repr

namespace QRegion

/-- The default-constructed region `QRegion()`. -/
def null : QRegion := ⟨[]⟩

/-- The region `QRegion(rect)`. -/
def ofRect (r : QRect) : QRegion := ⟨[r]⟩

/-- `QRegion::contains(QPoint(px, py))`. -/
def contains (g : QRegion) (px py : Int) : Bool := g.rects.any fun r => r.contains px py

/-- `QRegion::isEmpty()`: the region has no point. -/
def isEmpty (g : QRegion) : Bool := g.rects.all fun r => r.isEmpty

/-- `QRegion::isNull()`, which the toolkit defines as `isEmpty()`. -/
def isNull (g : QRegion) : Bool := g.isEmpty

/-- Every point of `a` is a point of `b`. -/
def subset (a b : QRegion) : Bool :=
  a.rects.all fun r => r.points.all fun p => b.contains p.1 p.2

/-- `QRegion::operator==`: both regions have the same points. -/
def equal (a b : QRegion) : Bool := a.subset b && b.subset a

/-- `QRegion::operator+=(const QRegion&)`: union. -/
def united (a b : QRegion) : QRegion := ⟨a.rects ++ b.rects⟩

/-- `QRegion::operator+=(const QRect&)`: union with one rectangle. -/
def unitedRect (a : QRegion) (r : QRect) : QRegion := ⟨a.rects ++ [r]⟩

end QRegion

namespace Breeze

/-! ## `breezeframeshadow.cpp` -/

/-- The enum `AnimationMode`.  The code names `AnimationNone`, `AnimationHover`
and `AnimationFocus`; `AnimationOther` stands for any further enumerator of the
declaration, which is not among the sources. -/
inductive AnimationMode
  | AnimationNone
  | AnimationHover
  | AnimationFocus
  | AnimationOther (flag : Nat)
deriving DecidableEq, Repr

/-- The four sides a `FrameShadow` can cover. -/
inductive ShadowArea
  | ShadowAreaTop
  | ShadowAreaBottom
  | ShadowAreaLeft
  | ShadowAreaRight
deriving DecidableEq, Repr

/-- A widget met through `parentWidget()`, by what the code observes of it: its
address, its meta-object inheritance chain (for `inherits` and `qobject_cast`),
whether it is a top-level widget and, for a scroll area, the address of its
viewport widget. -/
structure ParentWidget where
  ptr : Nat
  classes : List String
  isTopLevel : Bool
  viewport : Option Nat
deriving DecidableEq, Repr

/-- `QObject::inherits(name)`, also the outcome of `qobject_cast<name*>`. -/
def ParentWidget.inherits (p : ParentWidget) (name : String) : Bool :=
  decide (name ∈ p.classes)

/-- Paint requests issued by `FrameShadow::updateState`, in call order. -/
inductive PaintCall
  | update
  | setUpdatesEnabled (viewport : Nat) (enable : Bool)
deriving DecidableEq, Repr

/-- The state of one `FrameShadow`: the members declared by the class and the
widget properties its methods set. -/
structure FrameShadow where
  _area : ShadowArea
  _hasFocus : Bool
  _mouseOver : Bool
  _opacity : Rat
  _mode : AnimationMode
  _parentRect : QRect
  parentWidget : Option ParentWidget
  geometry : QRect
  visible : Bool
  opaquePaintEvent : Bool
  transparentForMouseEvents : Bool
  cursorFrom : Option Nat
deriving DecidableEq

/-- `FrameShadow::viewport()`: the viewport of the parent when the parent is a
`QAbstractScrollArea`, null otherwise. -/
def FrameShadow.viewport (s : FrameShadow) : Option Nat :=
  match s.parentWidget with
  | none => none
  | some p => if p.inherits "QAbstractScrollArea" then p.viewport else none

/-- The constructor `FrameShadow::FrameShadow(area, helper)`.  The new object
has no parent yet, hence no viewport and no cursor to take over. -/
def FrameShadow.construct (area : ShadowArea) : FrameShadow :=
  let s : FrameShadow :=
    { _area := area
      _hasFocus := false
      _mouseOver := false
      _opacity := -1
      _mode := AnimationMode.AnimationNone
      _parentRect := QRect.null
      parentWidget := none
      geometry := QRect.null
      visible := false
      opaquePaintEvent := false
      transparentForMouseEvents := true
      cursorFrom := none }
  let viewport : Option Nat :=
    match s.viewport, s.parentWidget with
    | none, some p => if p.inherits "Q3ListView" then some p.ptr else none
    | v, _ => v
  match viewport with
  | some v => { s with cursorFrom := some v }
  | none => s

/-- First statement of `updateState`, on the object and the local `changed`:
`if( _hasFocus != focus ) { _hasFocus = focus; changed |= true; }`. -/
def FrameShadow.updateFocus (focus : Bool) (st : FrameShadow × Bool) : FrameShadow × Bool :=
  match st with
  | (s, changed) =>
    if s._hasFocus ≠ focus then ({ s with _hasFocus := focus }, changed || true)
    else (s, changed)

/-- Second statement of `updateState`:
`if( _mouseOver != hover ) { _mouseOver = hover; changed |= !_hasFocus; }`. -/
def FrameShadow.updateHover (hover : Bool) (st : FrameShadow × Bool) : FrameShadow × Bool :=
  match st with
  | (s, changed) =>
    if s._mouseOver ≠ hover then ({ s with _mouseOver := hover }, changed || !s._hasFocus)
    else (s, changed)

/-- Third statement of `updateState`: when `_mode != mode`, store the mode and
set `changed` if the stored mode is now `AnimationNone`, `AnimationFocus`, or
`AnimationHover` without focus. -/
def FrameShadow.updateMode (mode : AnimationMode) (st : FrameShadow × Bool) :
    FrameShadow × Bool :=
  match st with
  | (s, changed) =>
    if s._mode ≠ mode then
      ({ s with _mode := mode },
        changed || (decide (mode = AnimationMode.AnimationNone)
          || decide (mode = AnimationMode.AnimationFocus)
          || (decide (mode = AnimationMode.AnimationHover) && !s._hasFocus)))
    else (s, changed)

/-- Fourth statement of `updateState`:
`if( _opacity != opacity ) { _opacity = opacity; changed |= (_mode != AnimationNone ); }`. -/
def FrameShadow.updateOpacity (opacity : Rat) (st : FrameShadow × Bool) : FrameShadow × Bool :=
  match st with
  | (s, changed) =>
    if s._opacity ≠ opacity then
      ({ s with _opacity := opacity }, changed || decide (s._mode ≠ AnimationMode.AnimationNone))
    else (s, changed)

/-- Last statement of `updateState`: `if( changed )`, call `update()`, between
two `setUpdatesEnabled` calls on the viewport when there is one. -/
def FrameShadow.updateIfChanged (st : FrameShadow × Bool) : FrameShadow × List PaintCall :=
  match st with
  | (s, changed) =>
    if changed then
      match s.viewport with
      | some v =>
        (s, [PaintCall.setUpdatesEnabled v false, PaintCall.update,
          PaintCall.setUpdatesEnabled v true])
      | none => (s, [PaintCall.update])
    else (s, [])

/-- `FrameShadow::updateState(focus, hover, opacity, mode)`: the five statements
of the body in order, starting from `changed = false`.  The result is the new
object and the paint requests issued. -/
def FrameShadow.updateState (s : FrameShadow) (focus hover : Bool) (opacity : Rat)
    (mode : AnimationMode) : FrameShadow × List PaintCall :=
  FrameShadow.updateIfChanged
    (FrameShadow.updateOpacity opacity
      (FrameShadow.updateMode mode
        (FrameShadow.updateHover hover
          (FrameShadow.updateFocus focus (s, false)))))

/-- Whether a call of `updateState` requested a repaint: `update()` was invoked. -/
def FrameShadow.requestsRepaint (r : FrameShadow × List PaintCall) : Bool :=
  decide (PaintCall.update ∈ r.2)

/-- The values read from `Metrics`; the declaration is not among the sources. -/
structure Metrics where
  Frame_FrameRadius : Int
deriving DecidableEq, Repr

/-- `QWidget::mapFromParent(pos)` for the shadow: the point relative to the
shadow's own position. -/
def FrameShadow.mapFromParent (s : FrameShadow) (pos : QPoint) : QPoint :=
  ⟨pos.x - s.geometry.x1, pos.y - s.geometry.y1⟩

/-- `FrameShadow::updateGeometry(rect)`: the parent rect is stored, and the
geometry is set to the side of `rect` that the area of the shadow names. -/
def FrameShadow.updateGeometry (metrics : Metrics) (s : FrameShadow) (rect : QRect) :
    FrameShadow :=
  let s := { s with _parentRect := rect.translated (s.mapFromParent ⟨0, 0⟩) }
  let rect := rect.adjust 1 1 (-1) (-1)
  let shadowSize := metrics.Frame_FrameRadius
  let rect :=
    match s._area with
    | ShadowArea.ShadowAreaTop => rect.setHeight shadowSize
    | ShadowArea.ShadowAreaBottom => rect.setTop (rect.bottom - shadowSize + 1)
    | ShadowArea.ShadowAreaLeft =>
      (rect.setWidth shadowSize).adjust 0 shadowSize 0 (-shadowSize)
    | ShadowArea.ShadowAreaRight =>
      (rect.setLeft (rect.right - shadowSize + 1)).adjust 0 shadowSize 0 (-shadowSize)
  { s with geometry := rect }

/-- The condition under which a call changes what is painted, as a function of
the stored state and the arguments: the focus flag differs, or the hover flag
differs without focus, or the mode differs and is now `AnimationNone`,
`AnimationFocus`, or `AnimationHover` without focus, or the opacity differs
while an animation runs. -/
def FrameShadow.changedBy (s : FrameShadow) (f h : Bool) (o : Rat) (m : AnimationMode) : Bool :=
  decide (s._hasFocus ≠ f)
    || (decide (s._mouseOver ≠ h) && !f)
    || (decide (s._mode ≠ m) && (decide (m = AnimationMode.AnimationNone)
          || decide (m = AnimationMode.AnimationFocus)
          || (decide (m = AnimationMode.AnimationHover) && !f)))
    || (decide (s._opacity ≠ o) && decide (m ≠ AnimationMode.AnimationNone))

/-- A shadow as constructed, then given the focus. -/
def focusedShadow : FrameShadow :=
  { FrameShadow.construct ShadowArea.ShadowAreaTop with _hasFocus := true }

/-- A shadow as constructed, parented to a scroll area with viewport `7`. -/
def scrollAreaShadow : FrameShadow :=
  { FrameShadow.construct ShadowArea.ShadowAreaLeft with
    parentWidget := some
      { ptr := 3, classes := ["QAbstractScrollArea", "QFrame", "QWidget", "QObject"],
        isTopLevel := false, viewport := some 7 } }

/-- A child object of a widget: a `FrameShadow`, or any other object. -/
inductive QObject
  | shadow (s : FrameShadow)
  | other (ptr : Nat)
deriving DecidableEq

/-- The outcome of `qobject_cast<FrameShadow*>( child )`. -/
def QObject.asFrameShadow : QObject → Option FrameShadow
  | QObject.shadow s => some s
  | QObject.other _ => none

/-- The event filters the factory installs on a widget: itself, and its member
`_addEventFilter`. -/
inductive EventFilter
  | factory
  | addEventFilter
deriving DecidableEq, Repr

/-- The enumerators of `QFrame` used by the code. -/
def QFrame.StyledPanel : Nat := 6
def QFrame.Sunken : Nat := 0x0030

/-- A widget handed to the factory.  `ancestors` is the chain `parentWidget()`,
`parentWidget()->parentWidget()`, ... up to the widget without parent;
`eventFilters` are the installed filters, most recent first;
`destroyedConnections` counts the connections of `destroyed(QObject*)` to the
factory's `widgetDestroyed` slot. -/
structure QWidget where
  ptr : Nat
  classes : List String
  frameStyle : Int
  isTopLevel : Bool
  viewport : Option Nat
  ancestors : List ParentWidget
  children : List QObject
  eventFilters : List EventFilter
  destroyedConnections : Nat
deriving DecidableEq

namespace QWidget

/-- `QObject::inherits(name)`, also the outcome of `qobject_cast<name*>`. -/
def inherits (w : QWidget) (name : String) : Bool := decide (name ∈ w.classes)

/-- The widget as one of its children sees it through `parentWidget()`. -/
def asParent (w : QWidget) : ParentWidget :=
  { ptr := w.ptr, classes := w.classes, isTopLevel := w.isTopLevel, viewport := w.viewport }

/-- `QObject::installEventFilter`: the filter is moved to the front. -/
def installEventFilter (w : QWidget) (f : EventFilter) : QWidget :=
  { w with eventFilters := f :: w.eventFilters.filter fun g => decide (g ≠ f) }

/-- `QObject::removeEventFilter`. -/
def removeEventFilter (w : QWidget) (f : EventFilter) : QWidget :=
  { w with eventFilters := w.eventFilters.filter fun g => decide (g ≠ f) }

end QWidget

/-- The members of `FrameShadowFactory`: the set `_registeredWidgets`, as the
list of the addresses it holds. -/
structure FrameShadowFactory where
  _registeredWidgets : List Nat
deriving DecidableEq, Repr

namespace FrameShadowFactory

/-- `isRegistered( widget )`: `_registeredWidgets.contains( widget )`. -/
def isRegistered (factory : FrameShadowFactory) (widget : Nat) : Bool :=
  decide (widget ∈ factory._registeredWidgets)

/-- `_registeredWidgets.insert( widget )`. -/
def insert (factory : FrameShadowFactory) (widget : Nat) : FrameShadowFactory :=
  if widget ∈ factory._registeredWidgets then factory
  else { factory with _registeredWidgets := widget :: factory._registeredWidgets }

/-- `_registeredWidgets.remove( widget )`. -/
def remove (factory : FrameShadowFactory) (widget : Nat) : FrameShadowFactory :=
  { factory with _registeredWidgets := factory._registeredWidgets.filter fun p => decide (p ≠ widget) }

/-- The loop of `registerWidget` over the parents of the widget, started at
`widget->parentWidget()`: true when it leaves through `return false`, that is
when it meets a parent inheriting `KHTMLView` before the chain ends or reaches
a top-level widget. -/
def embeddedInKHTMLView : List ParentWidget → Bool
  | [] => false
  | parent :: rest =>
    if parent.isTopLevel then false
    else if parent.inherits "KHTMLView" then true
    else embeddedInKHTMLView rest

/-- `FrameShadowFactory::removeShadows( widget )`: the factory's filter is
removed and every `FrameShadow` child is hidden, unparented and deleted. -/
def removeShadows (widget : QWidget) : QWidget :=
  let widget := widget.removeEventFilter EventFilter.factory
  { widget with children := widget.children.filter fun child => child.asFrameShadow.isNone }

/-- `FrameShadowFactory::installShadow( widget, helper, area )`: a new shadow is
constructed, parented to the widget and shown. -/
def installShadow (widget : QWidget) (area : ShadowArea) : QWidget :=
  let shadow := FrameShadow.construct area
  let shadow := { shadow with parentWidget := some widget.asParent }
  let shadow := { shadow with visible := true }
  { widget with children := widget.children ++ [QObject.shadow shadow] }

/-- `FrameShadowFactory::installShadows( widget, helper )`. -/
def installShadows (widget : QWidget) : QWidget :=
  let widget := removeShadows widget
  let widget := widget.installEventFilter EventFilter.factory
  let widget := widget.installEventFilter EventFilter.addEventFilter
  let widget := installShadow widget ShadowArea.ShadowAreaTop
  let widget := installShadow widget ShadowArea.ShadowAreaBottom
  let widget := installShadow widget ShadowArea.ShadowAreaLeft
  let widget := installShadow widget ShadowArea.ShadowAreaRight
  widget.removeEventFilter EventFilter.addEventFilter

/-- `FrameShadowFactory::registerWidget( widget, helper )`, `widget` being
`none` for a null pointer.  The result is the returned flag, the factory and
the widget after the call. -/
def registerWidget (factory : FrameShadowFactory) (widget : Option QWidget) :
    Bool × FrameShadowFactory × Option QWidget :=
  match widget with
  | none => (false, factory, none)
  | some w =>
    if factory.isRegistered w.ptr then (false, factory, some w)
    else
      let frame := w.inherits "QFrame"
      if frame && w.inherits "QSplitter" then (false, factory, some w)
      else
        let accepted :=
          if frame then decide (w.frameStyle = ((QFrame.StyledPanel ||| QFrame.Sunken : Nat) : Int))
          else w.inherits "KTextEditor::View"
        if !accepted then (false, factory, some w)
        else if embeddedInKHTMLView w.ancestors then (false, factory, some w)
        else
          let factory := factory.insert w.ptr
          let w := { w with destroyedConnections := w.destroyedConnections + 1 }
          let w := installShadows w
          (true, factory, some w)

/-- `FrameShadowFactory::unregisterWidget( widget )`. -/
def unregisterWidget (factory : FrameShadowFactory) (widget : QWidget) :
    FrameShadowFactory × QWidget :=
  if !factory.isRegistered widget.ptr then (factory, widget)
  else (factory.remove widget.ptr, removeShadows widget)

/-- `FrameShadowFactory::widgetDestroyed( object )`. -/
def widgetDestroyed (factory : FrameShadowFactory) (object : Nat) : FrameShadowFactory :=
  factory.remove object

end FrameShadowFactory

/-- The parents on which the body of the loop of `registerWidget` runs, in
order: the loop stops before a top-level parent, and after a parent inheriting
`KHTMLView`. -/
def FrameShadowFactory.visitedParents : List ParentWidget → List ParentWidget
  | [] => []
  | parent :: rest =>
    if parent.isTopLevel then []
    else if parent.inherits "KHTMLView" then [parent]
    else parent :: FrameShadowFactory.visitedParents rest

/-! ### Concrete widgets -/

/-- A factory with no registered widget. -/
def emptyFactory : FrameShadowFactory := { _registeredWidgets := [] }

/-- A plain container widget at address `12`. -/
def containerWidget : ParentWidget :=
  { ptr := 12, classes := ["QWidget", "QObject"], isTopLevel := false, viewport := none }

/-- A top-level main window at address `13`. -/
def topLevelWindow : ParentWidget :=
  { ptr := 13, classes := ["QMainWindow", "QWidget", "QObject"], isTopLevel := true,
    viewport := none }

/-- A sunken styled-panel frame inside a container inside a main window, with
one child that is not a shadow. -/
def sunkenFrame : QWidget :=
  { ptr := 11
    classes := ["QFrame", "QWidget", "QObject"]
    frameStyle := 54
    isTopLevel := false
    viewport := none
    ancestors := [containerWidget, topLevelWindow]
    children := [QObject.other 20]
    eventFilters := []
    destroyedConnections := 0 }

/-- The same frame inside a container inside an embedded `KHTMLView`. -/
def frameInKHTMLView : QWidget :=
  { sunkenFrame with
    ancestors :=
      [containerWidget,
        { ptr := 14, classes := ["KHTMLView", "QScrollArea", "QWidget", "QObject"],
          isTopLevel := false, viewport := some 15 },
        topLevelWindow] }

/-- The same frame, directly inside a `KHTMLView` that is a top-level widget. -/
def frameInTopLevelKHTMLView : QWidget :=
  { sunkenFrame with
    ancestors :=
      [{ ptr := 14, classes := ["KHTMLView", "QScrollArea", "QWidget", "QObject"],
          isTopLevel := true, viewport := some 15 }] }

/-- The same frame inside a dialog (a top-level widget with a parent) that was
opened from within an embedded `KHTMLView`. -/
def frameInDialogOverKHTMLView : QWidget :=
  { sunkenFrame with
    ancestors :=
      [{ ptr := 16, classes := ["QDialog", "QWidget", "QObject"], isTopLevel := true,
          viewport := none },
        { ptr := 14, classes := ["KHTMLView", "QScrollArea", "QWidget", "QObject"],
          isTopLevel := false, viewport := some 15 },
        topLevelWindow] }

end Breeze

namespace Lightly

/-! ## `lightlyblurhelper.cpp` -/

/-- A painter path, as the sequence of calls that built it. -/
inductive QPainterPath
  | empty
  | addRect (path : QPainterPath) (x y w h : Int)
  | addEllipse (path : QPainterPath) (x y w h : Int)
  | united (path other : QPainterPath)
deriving DecidableEq, Repr

/-- The value of a `bool` used as an `int` operand. -/
def boolInt (b : Bool) : Int := if b then 1 else 0

/-- The path assembled by `roundedRegion` before it is turned into a region. -/
def roundedPath (rect : QRect) (radius : Int) (topLeft topRight bottomLeft bottomRight : Bool) :
    QPainterPath :=
  let regionPath := QPainterPath.empty
  let regionPath :=
    regionPath.addRect rect.x (rect.y + radius) rect.width (rect.height - 2 * radius)
  let regionPath :=
    regionPath.addRect
      (rect.x + boolInt topLeft * radius)
      rect.y
      (rect.width - boolInt topLeft * radius - boolInt topRight * radius)
      radius
  let regionPath :=
    regionPath.addRect
      (rect.x + boolInt bottomLeft * radius)
      (rect.y + rect.height - radius)
      (rect.width - boolInt bottomLeft * radius - boolInt bottomRight * radius)
      radius
  let regionPath :=
    if topLeft then
      regionPath.united (QPainterPath.empty.addEllipse rect.x rect.y (2 * radius) (2 * radius))
    else regionPath
  let regionPath :=
    if topRight then
      regionPath.united
        (QPainterPath.empty.addEllipse (rect.x + rect.width - 2 * radius) rect.y
          (2 * radius) (2 * radius))
    else regionPath
  let regionPath :=
    if bottomRight then
      regionPath.united
        (QPainterPath.empty.addEllipse (rect.x + rect.width - 2 * radius)
          (rect.y + rect.height - 2 * radius) (2 * radius) (2 * radius))
    else regionPath
  let regionPath :=
    if bottomLeft then
      regionPath.united
        (QPainterPath.empty.addEllipse rect.x (rect.y + rect.height - 2 * radius)
          (2 * radius) (2 * radius))
    else regionPath
  regionPath

/-- The file-local `roundedRegion`.  `fillRegion path` stands for the toolkit
conversion `QRegion(path.toFillPolygon().toPolygon())`, which flattens curves
in floating point and is left uninterpreted. -/
def roundedRegion (fillRegion : QPainterPath → QRegion) (rect : QRect) (radius : Int)
    (topLeft topRight bottomLeft bottomRight : Bool) : QRegion :=
  fillRegion (roundedPath rect radius topLeft topRight bottomLeft bottomRight)

/-- A closed figure of a painter path: a rectangle or an ellipse, each given by
the corner and the size of its bounding rectangle. -/
inductive PathShape
  | rect (x y w h : Int)
  | ellipse (x y w h : Int)
deriving DecidableEq, Repr

namespace PathShape

def x : PathShape → Int
  | rect x _ _ _ => x
  | ellipse x _ _ _ => x

def y : PathShape → Int
  | rect _ y _ _ => y
  | ellipse _ y _ _ => y

def w : PathShape → Int
  | rect _ _ w _ => w
  | ellipse _ _ w _ => w

def h : PathShape → Int
  | rect _ _ _ h => h
  | ellipse _ _ _ h => h

/-- A `QRect` as a figure of the plane. -/
def ofRect (r : QRect) : PathShape := PathShape.rect r.x r.y r.width r.height

end PathShape

/-- The two orientations of a toolbar. -/
inductive Orientation
  | Horizontal
  | Vertical
deriving DecidableEq, Repr

/-- The widget attributes the helper tests. -/
inductive WidgetAttribute
  | WA_X11NetWmWindowTypeMenu
  | WA_WState_Created
deriving DecidableEq, Repr

/-- A child widget as `blurRegion` sees it (menu bar, toolbar, side panel): its
visibility, its geometry in the parent's coordinates and, for a `QToolBar`, its
orientation. -/
structure ChildWidget where
  isVisible : Bool
  geometry : QRect
  orientation : Orientation
deriving DecidableEq, Repr

namespace ChildWidget

/-- `QWidget::rect()`: the geometry moved to the origin. -/
def rect (c : ChildWidget) : QRect := QRect.ofSize 0 0 c.geometry.width c.geometry.height
def pos (c : ChildWidget) : QPoint := c.geometry.topLeft
def y (c : ChildWidget) : Int := c.pos.y
def height (c : ChildWidget) : Int := c.geometry.height

end ChildWidget

/-- The widget handed to the helper, by the observations the helper makes:
`classes` is the inheritance chain of its meta-object, `windowColorAlpha` is
`palette().color( QPalette::Window ).alpha()`, `menuWidget` is
`QMainWindow::menuWidget()`, `windowToolBars` is the result of
`window()->findChildren<QToolBar *>( QString(), Qt::FindDirectChildrenOnly )`
and `sidebars` the result of the `findChildren` call for the dock names. -/
structure QWidget where
  ptr : Nat
  isVisible : Bool
  geometry : QRect
  mask : QRegion
  classes : List String
  attributes : List WidgetAttribute
  internalWinId : Nat
  windowColorAlpha : Int
  menuWidget : Option ChildWidget
  windowToolBars : List ChildWidget
  sidebars : List ChildWidget
  isWindow : Bool
  windowHandle : Nat
  topLevelWindowHandle : Nat
deriving DecidableEq, Repr

namespace QWidget

def rect (w : QWidget) : QRect := QRect.ofSize 0 0 w.geometry.width w.geometry.height

/-- `QObject::inherits(name)`, also the outcome of `qobject_cast<name*>`. -/
def inherits (w : QWidget) (name : String) : Bool := decide (name ∈ w.classes)

def testAttribute (w : QWidget) (a : WidgetAttribute) : Bool := decide (a ∈ w.attributes)

end QWidget

/-- The values read from `StyleConfigData`. -/
structure StyleConfigData where
  cornerRadius : Int
  dolphinSidebarOpacity : Int
deriving DecidableEq, Repr

/-- The members of `BlurHelper`. -/
structure BlurHelper where
  _translucentTitlebar : Bool
  _isDolphin : Bool
deriving DecidableEq, Repr

namespace BlurHelper

/-- The local `menubarHeight` of `blurRegion` after the menu bar test. -/
def menubarHeight (widget : QWidget) : Int :=
  if widget.inherits "QMainWindow" then
    match widget.menuWidget with
    | some mb => if mb.isVisible then mb.height else 0
    | none => 0
  else 0

/-- The menu bar test of `blurRegion`, on the local `region`. -/
def addMenubar (widget : QWidget) (region : QRegion) : QRegion :=
  if widget.inherits "QMainWindow" then
    match widget.menuWidget with
    | some mb => if mb.isVisible then region.unitedRect mb.rect else region
    | none => region
  else region

/-- The test on one toolbar inside the loop of `blurRegion`. -/
def toolbarTouchesHeader (helper : BlurHelper) (menubarHeight : Int) (tb : ChildWidget) : Bool :=
  tb.isVisible
    && (decide (tb.orientation = Orientation.Horizontal) || helper._isDolphin)
    && (decide (tb.y = 0) || decide (tb.y = menubarHeight))

/-- The loop of `blurRegion` over the toolbars, on the local `region`. -/
def addToolbars (helper : BlurHelper) (menubarHeight : Int) (toolbars : List ChildWidget)
    (region : QRegion) : QRegion :=
  toolbars.foldl
    (fun region tb =>
      if helper.toolbarTouchesHeader menubarHeight tb then
        region.united (QRegion.ofRect (QRect.ofPosSize tb.pos tb.rect.size))
      else region)
    region

/-- The block `if( _translucentTitlebar )` of `blurRegion`. -/
def addTitlebar (helper : BlurHelper) (widget : QWidget) (region : QRegion) : QRegion :=
  if helper._translucentTitlebar then
    helper.addToolbars (menubarHeight widget) widget.windowToolBars (addMenubar widget region)
  else region

/-- The block for Dolphin's sidebar of `blurRegion`. -/
def addSidebar (helper : BlurHelper) (config : StyleConfigData) (widget : QWidget)
    (region : QRegion) : QRegion :=
  if decide (config.dolphinSidebarOpacity < 100) && helper._isDolphin then
    let region :=
      if !helper._translucentTitlebar then
        match widget.windowToolBars.head? with
        | some toolbar =>
          if toolbar.orientation = Orientation.Vertical then
            region.unitedRect (QRect.ofPosSize toolbar.pos toolbar.rect.size)
          else region
        | none => region
      else region
    widget.sidebars.foldl
      (fun region sb =>
        if sb.isVisible then region.unitedRect (QRect.ofPosSize sb.pos sb.rect.size)
        else region)
      region
  else region

/-- The last branch of `blurRegion`, for an ordinary window. -/
def windowRegion (helper : BlurHelper) (config : StyleConfigData) (widget : QWidget) : QRegion :=
  if widget.windowColorAlpha < 255 then QRegion.ofRect widget.rect
  else helper.addSidebar config widget (helper.addTitlebar widget QRegion.null)

/-- `BlurHelper::blurRegion(widget)`. -/
def blurRegion (helper : BlurHelper) (config : StyleConfigData)
    (fillRegion : QPainterPath → QRegion) (widget : QWidget) : QRegion :=
  if !widget.isVisible then QRegion.null
  else
    let rect := widget.rect
    let wMask := widget.mask
    if !wMask.isEmpty && !wMask.equal (QRegion.ofRect rect) then QRegion.null
    else if (widget.inherits "QMenu"
          && !widget.testAttribute WidgetAttribute.WA_X11NetWmWindowTypeMenu)
        || widget.inherits "QComboBoxPrivateContainer" then
      roundedRegion fillRegion rect (config.cornerRadius + 1) true true true true
    else helper.windowRegion config widget

/-- What `BlurHelper::update` asks of the toolkit, in call order. -/
inductive BlurCall
  | enableBlurBehind (window : Nat) (enable : Bool) (region : QRegion)
  | update (widget : Nat)
deriving DecidableEq, Repr

/-- `BlurHelper::update(widget)`. -/
def update (helper : BlurHelper) (config : StyleConfigData)
    (fillRegion : QPainterPath → QRegion) (widget : QWidget) : List BlurCall :=
  if !(widget.testAttribute WidgetAttribute.WA_WState_Created
      || decide (widget.internalWinId ≠ 0)) then []
  else
    let region := helper.blurRegion config fillRegion widget
    if region.isNull then []
    else
      BlurCall.enableBlurBehind
          (if widget.isWindow then widget.windowHandle else widget.topLevelWindowHandle)
          true region
        :: (if widget.isVisible then [BlurCall.update widget.ptr] else [])

end BlurHelper

/-- The event types `eventFilter` distinguishes; `Other` is any further type. -/
inductive QEventType
  | Hide
  | Show
  | Resize
  | Other (code : Nat)
deriving DecidableEq, Repr

/-- An object handed to the event filter: `asWidget` is the outcome of
`qobject_cast<QWidget*>( object )`. -/
structure QObject where
  asWidget : Option QWidget
deriving DecidableEq, Repr

/-- `BlurHelper::eventFilter(object, event)`: the returned flag and the calls
made. -/
def BlurHelper.eventFilter (helper : BlurHelper) (config : StyleConfigData)
    (fillRegion : QPainterPath → QRegion) (object : QObject) (event : QEventType) :
    Bool × List BlurCall :=
  let calls : List BlurCall :=
    match event with
    | QEventType.Hide | QEventType.Show | QEventType.Resize =>
      match object.asWidget with
      | none => []
      | some widget => helper.update config fillRegion widget
    | _ => []
  (false, calls)

/-! ### The title bar step in the words of its description -/

/-- The menu widget of a `QMainWindow` when that exists and is visible. -/
def titlebarMenubar (widget : QWidget) : Option ChildWidget :=
  if widget.inherits "QMainWindow" then widget.menuWidget.filter fun mb => mb.isVisible
  else none

/-- The height of that menu widget, and `0` when there is none. -/
def titlebarMenubarHeight (widget : QWidget) : Int :=
  match titlebarMenubar widget with
  | some mb => mb.height
  | none => 0

/-- A toolbar counts when it is visible, is horizontal or the helper serves
Dolphin, and sits at `y = 0` or right below the menu bar. -/
def titlebarToolbar (helper : BlurHelper) (widget : QWidget) (tb : ChildWidget) : Bool :=
  tb.isVisible
    && (decide (tb.orientation = Orientation.Horizontal) || helper._isDolphin)
    && (decide (tb.y = 0) || decide (tb.y = titlebarMenubarHeight widget))

/-- The rectangles of the title bar: the rect of the visible menu bar, then
`QRect(pos, size)` of every toolbar that counts, in the order of the toolbars. -/
def titlebarRects (helper : BlurHelper) (widget : QWidget) : List QRect :=
  (match titlebarMenubar widget with
    | some mb => [mb.rect]
    | none => [])
  ++ (widget.windowToolBars.filter (titlebarToolbar helper widget)).map
      fun tb => QRect.ofPosSize tb.pos tb.rect.size

/-! ### Concrete widgets -/

/-- A visible, opaque, unmasked main window of 40 by 30 with a menu bar of
height 4 and four toolbars: one below the menu bar, a vertical one, one at the
bottom edge and a hidden one at the top. -/
def mainWindow : QWidget :=
  { ptr := 1
    isVisible := true
    geometry := QRect.ofSize 100 100 40 30
    mask := QRegion.null
    classes := ["QMainWindow", "QWidget", "QObject"]
    attributes := [WidgetAttribute.WA_WState_Created]
    internalWinId := 5
    windowColorAlpha := 255
    menuWidget := some
      { isVisible := true, geometry := QRect.ofSize 0 0 40 4,
        orientation := Orientation.Horizontal }
    windowToolBars :=
      [ { isVisible := true, geometry := QRect.ofSize 0 4 40 3,
          orientation := Orientation.Horizontal },
        { isVisible := true, geometry := QRect.ofSize 0 4 3 26,
          orientation := Orientation.Vertical },
        { isVisible := true, geometry := QRect.ofSize 0 27 40 3,
          orientation := Orientation.Horizontal },
        { isVisible := false, geometry := QRect.ofSize 0 0 40 3,
          orientation := Orientation.Horizontal } ]
    sidebars := []
    isWindow := true
    windowHandle := 9
    topLevelWindowHandle := 9 }

/-- The same window, hidden. -/
def hiddenWindow : QWidget := { mainWindow with isVisible := false }

/-- The same window with a mask covering only its top-left pixel. -/
def maskedWindow : QWidget := { mainWindow with mask := QRegion.ofRect (QRect.ofSize 0 0 1 1) }

/-- The same window with a translucent `Window` colour. -/
def translucentWindow : QWidget := { mainWindow with windowColorAlpha := 200 }

/-- A popup menu. -/
def popupMenu : QWidget :=
  { mainWindow with
    classes := ["QMenu", "QWidget", "QObject"], menuWidget := none, windowToolBars := [] }

/-- A detached (torn-off) menu. -/
def detachedMenu : QWidget :=
  { popupMenu with
    attributes := [WidgetAttribute.WA_WState_Created, WidgetAttribute.WA_X11NetWmWindowTypeMenu] }

/-- A helper with translucent title bars, not serving Dolphin. -/
def titlebarHelper : BlurHelper := { _translucentTitlebar := true, _isDolphin := false }

/-- A configuration with corner radius 5 and opaque Dolphin sidebar. -/
def defaultConfig : StyleConfigData := { cornerRadius := 5, dolphinSidebarOpacity := 100 }

/-- A stand-in for the polygon conversion, giving the null region. -/
def noFill : QPainterPath → QRegion := fun _ => QRegion.null

end Lightly

namespace Lightly

/-! ## `lightlybutton.cpp` -/

/-- A toolkit colour: whether it is valid, and its four channels. -/
structure QColor where
  valid : Bool
  red : Int
  green : Int
  blue : Int
  alpha : Int
deriving DecidableEq, Repr

namespace QColor

/-- The default-constructed colour `QColor()`, which is not valid. -/
def invalid : QColor := ⟨false, 0, 0, 0, 255⟩

def isValid (c : QColor) : Bool := c.valid

/-- `QColor::setAlpha(alpha)`: the toolkit bounds the value to `0 .. 255`. -/
def setAlpha (c : QColor) (alpha : Int) : QColor := { c with alpha := max 0 (min alpha 255) }

end QColor

/-- The integer nearest to `m`, the even one of the two when `m` lies half way. -/
def roundHalfEven (m : Rat) : Int :=
  let f := ⌊m⌋
  let r := m - f
  if r < 1 / 2 then f
  else if 1 / 2 < r then f + 1
  else if f % 2 = 0 then f
  else f + 1

/-- The double nearest to `q`, ties to even: the result of a floating point
operation whose exact value is `q`.  A double has 53 significant bits, and its
last bit weighs at least `2 ^ (-1074)`.  Values beyond the largest finite
double are not turned into an infinity. -/
def roundToDouble (q : Rat) : Rat :=
  if q = 0 then 0
  else
    let k := max (Int.log 2 |q| - 52) (-1074)
    (roundHalfEven (q / (2 : Rat) ^ k) : Rat) * (2 : Rat) ^ k

/-- The conversion of a `qreal` to `int`: truncation towards zero. -/
def qrealToInt (v : Rat) : Int := Int.tdiv v.num v.den

/-- The button types of the decoration API named by the code; `Other` stands
for any further enumerator. -/
inductive DecorationButtonType
  | Menu
  | ApplicationMenu
  | Minimize
  | Maximize
  | Close
  | ContextHelp
  | Shade
  | KeepBelow
  | KeepAbove
  | Other (code : Nat)
deriving DecidableEq, Repr

/-- The decorated client, by the properties the button reads;
`warningForeground` is `color( ColorGroup::Warning, ColorRole::Foreground )`. -/
structure DecoratedClient where
  isCloseable : Bool
  isMaximizeable : Bool
  isMinimizeable : Bool
  providesContextHelp : Bool
  isShadeable : Bool
  warningForeground : QColor
deriving DecidableEq, Repr

/-- A `Lightly::Decoration`, by the properties the button reads. -/
structure Decoration where
  client : DecoratedClient
  fontColor : QColor
  buttonHeight : Int
  animationsDuration : Int
  animationsEnabled : Bool
deriving DecidableEq, Repr

/-- A pointer to a `KDecoration2::Decoration`: null, a decoration of another
class, or a `Lightly::Decoration`. -/
inductive DecorationPtr
  | null
  | foreign
  | lightly (d : Decoration)
deriving DecidableEq, Repr

/-- The outcome of `qobject_cast<Decoration*>`. -/
def DecorationPtr.asLightly : DecorationPtr → Option Decoration
  | DecorationPtr.lightly d => some d
  | _ => none

/-- The states of `QAbstractAnimation`. -/
inductive AnimationState
  | Stopped
  | Paused
  | Running
deriving DecidableEq, Repr

/-- The values of the member `m_flag`. -/
inductive Flag
  | FlagNone
  | FlagStandalone
  | FlagFirstInList
  | FlagLastInList
deriving DecidableEq, Repr

/-- The signals and slots that `Button` connects. -/
inductive Signal
  | valueChanged
  | iconChanged
  | reconfigured
  | hoveredChanged
  | closeableChanged
  | maximizeableChanged
  | minimizeableChanged
  | providesContextHelpChanged
  | shadeableChanged
deriving DecidableEq, Repr

inductive Slot
  | setOpacity
  | update
  | reconfigure
  | updateAnimationState
  | setVisible
deriving DecidableEq, Repr

/-- The flags of a button as the constructor of the toolkit base class
`DecorationButton` leaves them. -/
structure ToolkitDefaults where
  visible : Bool
  enabled : Bool
  checked : Bool
deriving DecidableEq, Repr

/-- The state of a `Button`: the properties of the base class that the code
reads or sets, and the members of the class. -/
structure Button where
  type : DecorationButtonType
  decoration : DecorationPtr
  visible : Bool
  enabled : Bool
  checked : Bool
  pressed : Bool
  hovered : Bool
  geometry : QRect
  m_flag : Flag
  m_iconSize : QSize
  m_opacity : Rat
  animationState : AnimationState
  animationDuration : Int
  connections : List (Signal × Slot)
deriving DecidableEq

namespace Button

/-- `Button::reconfigure()`. -/
def reconfigure (b : Button) : Button :=
  match b.decoration.asLightly with
  | some d => { b with animationDuration := d.animationsDuration }
  | none => b

/-- `DecorationButton::setVisible(visible)`. -/
def setVisible (b : Button) (visible : Bool) : Button := { b with visible := visible }

/-- The constructor `Button::Button(type, decoration, parent)`, `defaults`
being what the constructor of the base class leaves. -/
def construct (defaults : ToolkitDefaults) (type : DecorationButtonType) (decoration : Decoration) :
    Button :=
  let b : Button :=
    { type := type
      decoration := DecorationPtr.lightly decoration
      visible := defaults.visible
      enabled := defaults.enabled
      checked := defaults.checked
      pressed := false
      hovered := false
      geometry := QRect.null
      m_flag := Flag.FlagNone
      m_iconSize := ⟨-1, -1⟩
      m_opacity := 0
      animationState := AnimationState.Stopped
      animationDuration := 0
      connections := [] }
  let b := { b with connections := b.connections ++ [(Signal.valueChanged, Slot.setOpacity)] }
  let height := decoration.buttonHeight
  let b := { b with geometry := QRect.ofSize 0 0 height height }
  let b := { b with m_iconSize := ⟨height, height⟩ }
  let b :=
    { b with
      connections := b.connections ++
        [(Signal.iconChanged, Slot.update), (Signal.reconfigured, Slot.reconfigure),
          (Signal.hoveredChanged, Slot.updateAnimationState)] }
  b.reconfigure

/-- `Button::create(type, decoration, parent)`; `none` is the null pointer. -/
def create (defaults : ToolkitDefaults) (type : DecorationButtonType) (decoration : DecorationPtr) :
    Option Button :=
  match decoration.asLightly with
  | some d =>
    let b := construct defaults type d
    let b :=
      match type with
      | DecorationButtonType.Close =>
        let b := b.setVisible d.client.isCloseable
        { b with connections := b.connections ++ [(Signal.closeableChanged, Slot.setVisible)] }
      | DecorationButtonType.Maximize =>
        let b := b.setVisible d.client.isMaximizeable
        { b with connections := b.connections ++ [(Signal.maximizeableChanged, Slot.setVisible)] }
      | DecorationButtonType.Minimize =>
        let b := b.setVisible d.client.isMinimizeable
        { b with connections := b.connections ++ [(Signal.minimizeableChanged, Slot.setVisible)] }
      | DecorationButtonType.ContextHelp =>
        let b := b.setVisible d.client.providesContextHelp
        { b with
          connections := b.connections ++ [(Signal.providesContextHelpChanged, Slot.setVisible)] }
      | DecorationButtonType.Shade =>
        let b := b.setVisible d.client.isShadeable
        { b with connections := b.connections ++ [(Signal.shadeableChanged, Slot.setVisible)] }
      | DecorationButtonType.Menu =>
        { b with connections := b.connections ++ [(Signal.iconChanged, Slot.update)] }
      | _ => b
    some b
  | none => none

/-- `Button::foregroundColor()`. -/
def foregroundColor (b : Button) : QColor :=
  match b.decoration.asLightly with
  | none => QColor.invalid
  | some d => d.fontColor

/-- The block of `backgroundColor` for the close button: the colour it returns,
or `none` when control leaves the block without returning.  The product
`color.alpha() * m_opacity` is a product of doubles, so it is rounded. -/
def closeBackgroundColor (lighter : QColor → QColor) (b : Button) (c : DecoratedClient) :
    Option QColor :=
  if b.type = DecorationButtonType.Close then
    if b.pressed then some (lighter c.warningForeground)
    else if b.animationState = AnimationState.Running then
      let color := c.warningForeground
      some (color.setAlpha (qrealToInt (roundToDouble ((color.alpha : Rat) * b.m_opacity))))
    else if b.hovered then some c.warningForeground
    else none
  else none

/-- `Button::backgroundColor()`.  `lighter` is the toolkit function
`QColor::lighter()`. -/
def backgroundColor (lighter : QColor → QColor) (b : Button) : QColor :=
  match b.decoration.asLightly with
  | none => QColor.invalid
  | some d =>
    let c := d.client
    match closeBackgroundColor lighter b c with
    | some color => color
    | none =>
      let color := d.fontColor
      if b.pressed
          || ((decide (b.type = DecorationButtonType.KeepBelow)
              || decide (b.type = DecorationButtonType.KeepAbove)
              || decide (b.type = DecorationButtonType.Shade)) && b.checked) then
        color.setAlpha 64
      else if b.animationState = AnimationState.Running then
        color.setAlpha (qrealToInt (32 * b.m_opacity))
      else if b.hovered then color.setAlpha 32
      else QColor.invalid

end Button

/-! ### Concrete buttons -/

/-- A client that can be closed and shaded but not maximized. -/
def dialogClient : DecoratedClient :=
  { isCloseable := true, isMaximizeable := false, isMinimizeable := true,
    providesContextHelp := false, isShadeable := true,
    warningForeground := ⟨true, 218, 68, 83, 200⟩ }

/-- A decoration with an opaque dark font colour. -/
def dialogDecoration : Decoration :=
  { client := dialogClient, fontColor := ⟨true, 35, 38, 41, 255⟩, buttonHeight := 18,
    animationsDuration := 150, animationsEnabled := true }

/-- What the base class leaves: visible, enabled, not checked. -/
def plainDefaults : ToolkitDefaults := { visible := true, enabled := true, checked := false }

/-- The opacity one half. -/
def halfOpacity : Rat := ⟨1, 2, by decide, by decide⟩

/-- The double nearest to three tenths, `0.3` in the source notation. -/
def threeTenths : Rat := ⟨5404319552844595, 18014398509481984, by decide, by decide⟩

/-- A hovered minimize button whose animation is running at half opacity. -/
def animatedMinimize : Button :=
  { Button.construct plainDefaults DecorationButtonType.Minimize dialogDecoration with
    hovered := true, animationState := AnimationState.Running, m_opacity := halfOpacity }

/-- A close button at rest. -/
def idleClose : Button :=
  Button.construct plainDefaults DecorationButtonType.Close dialogDecoration

/-- A close button whose animation is running at half opacity. -/
def animatedClose : Button :=
  { idleClose with
    hovered := true, animationState := AnimationState.Running, m_opacity := halfOpacity }

/-- A close button whose animation is running at opacity `0.3`. -/
def fadingClose : Button :=
  { idleClose with
    hovered := true, animationState := AnimationState.Running, m_opacity := threeTenths }

end Lightly

/-! ## Theorems -/

/-! ### Regions as point sets -/

theorem QRect.mem_points (r : QRect) (px py : Int) :
    (px, py) ∈ r.points ↔ r.contains px py = true := by
  rw [QRect.points, List.mem_flatMap]
  simp only [QRect.contains, QRect.width, QRect.height, Bool.and_eq_true, decide_eq_true_eq]
  constructor
  · rintro ⟨j, hj, hm⟩
    rw [List.mem_map] at hm
    obtain ⟨i, hi, heq⟩ := hm
    rw [List.mem_range] at hi hj
    rw [Prod.mk.injEq] at heq
    omega
  · rintro ⟨⟨⟨h1, h2⟩, h3⟩, h4⟩
    refine ⟨(py - r.y1).toNat, ?_, ?_⟩
    · rw [List.mem_range]
      omega
    · rw [List.mem_map]
      refine ⟨(px - r.x1).toNat, ?_, ?_⟩
      · rw [List.mem_range]
        omega
      · rw [Prod.mk.injEq]
        omega

theorem QRect.isEmpty_iff_no_point (r : QRect) :
    r.isEmpty = true ↔ ∀ px py, r.contains px py = false := by
  simp only [QRect.isEmpty, QRect.contains, Bool.or_eq_true, decide_eq_true_eq]
  constructor
  · intro h px py
    by_contra hc
    simp only [Bool.not_eq_false, Bool.and_eq_true, decide_eq_true_eq] at hc
    omega
  · intro h
    by_contra hc
    have := h r.x1 r.y1
    simp only [Bool.and_eq_false_iff, decide_eq_false_iff_not] at this
    omega

/-- The emptiness test of the model is emptiness of the point set. -/
theorem QRegion.isEmpty_iff_no_point_in_any (g : QRegion) :
    g.isEmpty = true ↔ ∀ px py, g.contains px py = false := by
  simp only [QRegion.isEmpty, QRegion.contains, List.all_eq_true, QRect.isEmpty_iff_no_point,
    List.any_eq_false]
  constructor
  · intro h px py r hr
    simp [h r hr px py]
  · intro h r hr px py
    simpa using h px py r hr

theorem QRegion.subset_iff (a b : QRegion) :
    a.subset b = true ↔ ∀ px py, a.contains px py = true → b.contains px py = true := by
  simp only [QRegion.subset, List.all_eq_true]
  constructor
  · intro h px py hp
    simp only [QRegion.contains, List.any_eq_true] at hp
    obtain ⟨r, hr, hc⟩ := hp
    exact h r hr (px, py) ((QRect.mem_points r px py).2 hc)
  · rintro h r hr ⟨px, py⟩ hp
    apply h
    simp only [QRegion.contains, List.any_eq_true]
    exact ⟨r, hr, (QRect.mem_points r px py).1 hp⟩

/-- The comparison of the model is equality of the point sets. -/
theorem QRegion.equal_iff (a b : QRegion) :
    a.equal b = true ↔ ∀ px py, a.contains px py = b.contains px py := by
  simp only [QRegion.equal, Bool.and_eq_true, QRegion.subset_iff]
  constructor
  · rintro ⟨h1, h2⟩ px py
    cases hb : b.contains px py
    · cases ha : a.contains px py
      · rfl
      · rw [h1 px py ha] at hb
        exact hb
    · exact h2 px py hb
  · intro h
    exact ⟨fun px py hp => by rw [← h]; exact hp, fun px py hp => by rw [h]; exact hp⟩

namespace Lightly

/-! ### The loops of `blurRegion` in closed form -/

theorem BlurHelper.addToolbars_eq (helper : BlurHelper) (menubarHeight : Int)
    (toolbars : List ChildWidget) (region : QRegion) :
    helper.addToolbars menubarHeight toolbars region
      = ⟨region.rects
          ++ (toolbars.filter (helper.toolbarTouchesHeader menubarHeight)).map
              fun tb => QRect.ofPosSize tb.pos tb.rect.size⟩ := by
  induction toolbars generalizing region with
  | nil => simp [BlurHelper.addToolbars]
  | cons tb rest ih =>
    have hstep : helper.addToolbars menubarHeight (tb :: rest) region
        = helper.addToolbars menubarHeight rest
            (if helper.toolbarTouchesHeader menubarHeight tb then
              region.united (QRegion.ofRect (QRect.ofPosSize tb.pos tb.rect.size))
            else region) := by
      simp [BlurHelper.addToolbars]
    rw [hstep, ih]
    cases hc : helper.toolbarTouchesHeader menubarHeight tb <;>
      simp [List.filter_cons, hc, QRegion.united, QRegion.ofRect]

theorem BlurHelper.menubarHeight_eq (widget : QWidget) :
    BlurHelper.menubarHeight widget = titlebarMenubarHeight widget := by
  unfold BlurHelper.menubarHeight titlebarMenubarHeight titlebarMenubar
  cases hmw : widget.inherits "QMainWindow"
  · simp
  · cases hmb : widget.menuWidget with
    | none => simp
    | some mb => cases hv : mb.isVisible <;> simp [Option.filter, hv]

theorem BlurHelper.addMenubar_eq (widget : QWidget) (region : QRegion) :
    BlurHelper.addMenubar widget region
      = ⟨region.rects ++ (match titlebarMenubar widget with
          | some mb => [mb.rect]
          | none => [])⟩ := by
  unfold BlurHelper.addMenubar titlebarMenubar
  cases hmw : widget.inherits "QMainWindow"
  · simp
  · cases hmb : widget.menuWidget with
    | none => simp
    | some mb => cases hv : mb.isVisible <;> simp [Option.filter, hv, QRegion.unitedRect]

theorem BlurHelper.addTitlebar_eq (helper : BlurHelper) (widget : QWidget) (region : QRegion)
    (htt : helper._translucentTitlebar = true) :
    helper.addTitlebar widget region = ⟨region.rects ++ titlebarRects helper widget⟩ := by
  unfold BlurHelper.addTitlebar
  rw [if_pos htt, BlurHelper.addToolbars_eq, BlurHelper.addMenubar_eq,
    BlurHelper.menubarHeight_eq]
  simp only [titlebarRects, List.append_assoc]
  rfl

end Lightly

namespace Breeze

theorem FrameShadow.updateFocus_eq (f : Bool) (s : FrameShadow) (c : Bool) :
    FrameShadow.updateFocus f (s, c)
      = ({ s with _hasFocus := f }, c || decide (s._hasFocus ≠ f)) := by
  rcases s with ⟨a, hf, mo, op, md, pr, pw, g, v, ope, t, cu⟩
  by_cases h1 : hf = f <;> simp [FrameShadow.updateFocus, h1]

theorem FrameShadow.updateHover_eq (h : Bool) (s : FrameShadow) (c : Bool) :
    FrameShadow.updateHover h (s, c)
      = ({ s with _mouseOver := h }, c || (decide (s._mouseOver ≠ h) && !s._hasFocus)) := by
  rcases s with ⟨a, hf, mo, op, md, pr, pw, g, v, ope, t, cu⟩
  by_cases h1 : mo = h <;> simp [FrameShadow.updateHover, h1]

theorem FrameShadow.updateMode_eq (m : AnimationMode) (s : FrameShadow) (c : Bool) :
    FrameShadow.updateMode m (s, c)
      = ({ s with _mode := m },
          c || (decide (s._mode ≠ m) && (decide (m = AnimationMode.AnimationNone)
            || decide (m = AnimationMode.AnimationFocus)
            || (decide (m = AnimationMode.AnimationHover) && !s._hasFocus)))) := by
  rcases s with ⟨a, hf, mo, op, md, pr, pw, g, v, ope, t, cu⟩
  by_cases h1 : md = m <;> simp [FrameShadow.updateMode, h1]

theorem FrameShadow.updateOpacity_eq (o : Rat) (s : FrameShadow) (c : Bool) :
    FrameShadow.updateOpacity o (s, c)
      = ({ s with _opacity := o },
          c || (decide (s._opacity ≠ o) && decide (s._mode ≠ AnimationMode.AnimationNone))) := by
  rcases s with ⟨a, hf, mo, op, md, pr, pw, g, v, ope, t, cu⟩
  by_cases h1 : op = o <;> simp [FrameShadow.updateOpacity, h1]

theorem FrameShadow.updateIfChanged_fst (st : FrameShadow × Bool) :
    (FrameShadow.updateIfChanged st).1 = st.1 := by
  rcases st with ⟨s, c⟩
  cases c <;> simp [FrameShadow.updateIfChanged]
  cases s.viewport <;> rfl

theorem FrameShadow.updateIfChanged_repaint (st : FrameShadow × Bool) :
    FrameShadow.requestsRepaint (FrameShadow.updateIfChanged st) = st.2 := by
  rcases st with ⟨s, c⟩
  cases c <;> simp [FrameShadow.updateIfChanged, FrameShadow.requestsRepaint]
  cases s.viewport <;> simp

theorem FrameShadow.updateIfChanged_nil (st : FrameShadow × Bool) (h : st.2 = false) :
    (FrameShadow.updateIfChanged st).2 = [] := by
  rcases st with ⟨s, c⟩
  simp only at h
  subst h
  simp [FrameShadow.updateIfChanged]

/-- The object left by `updateState` holds the four arguments; every other
member is the one of the object it was called on. -/
theorem FrameShadow.updateState_fst (s : FrameShadow) (f h : Bool) (o : Rat)
    (m : AnimationMode) :
    (s.updateState f h o m).1
      = { s with _hasFocus := f, _mouseOver := h, _opacity := o, _mode := m } := by
  simp only [FrameShadow.updateState, FrameShadow.updateFocus_eq, FrameShadow.updateHover_eq,
    FrameShadow.updateMode_eq, FrameShadow.updateOpacity_eq, FrameShadow.updateIfChanged_fst]

/-- A repaint is requested exactly when the local `changed` ends up set. -/
theorem FrameShadow.updateState_repaint (s : FrameShadow) (f h : Bool) (o : Rat)
    (m : AnimationMode) :
    FrameShadow.requestsRepaint (s.updateState f h o m) = s.changedBy f h o m := by
  simp only [FrameShadow.updateState, FrameShadow.updateFocus_eq, FrameShadow.updateHover_eq,
    FrameShadow.updateMode_eq, FrameShadow.updateOpacity_eq, FrameShadow.updateIfChanged_repaint,
    FrameShadow.changedBy]
  simp

/-! ### The parent walk of `registerWidget` -/

theorem FrameShadowFactory.embeddedInKHTMLView_iff (parents : List ParentWidget) :
    FrameShadowFactory.embeddedInKHTMLView parents = true
      ↔ ∃ a ∈ FrameShadowFactory.visitedParents parents, a.inherits "KHTMLView" = true := by
  induction parents with
  | nil => simp [FrameShadowFactory.embeddedInKHTMLView, FrameShadowFactory.visitedParents]
  | cons parent rest ih =>
    unfold FrameShadowFactory.embeddedInKHTMLView FrameShadowFactory.visitedParents
    cases ht : parent.isTopLevel
    · cases hk : parent.inherits "KHTMLView"
      · simp [ih, hk]
      · simp [hk]
    · simp

theorem FrameShadowFactory.embeddedInKHTMLView_of_reached (below above : List ParentWidget)
    (a : ParentWidget) (hbelow : ∀ b ∈ below, b.isTopLevel = false)
    (ha : a.isTopLevel = false) (hk : a.inherits "KHTMLView" = true) :
    FrameShadowFactory.embeddedInKHTMLView (below ++ a :: above) = true := by
  induction below with
  | nil => simp [FrameShadowFactory.embeddedInKHTMLView, ha, hk]
  | cons b rest ih =>
    have hb : b.isTopLevel = false := hbelow b (List.mem_cons_self b rest)
    have hrest : ∀ c ∈ rest, c.isTopLevel = false :=
      fun c hc => hbelow c (List.mem_cons_of_mem b hc)
    rw [List.cons_append]
    unfold FrameShadowFactory.embeddedInKHTMLView
    cases hkb : b.inherits "KHTMLView"
    · simp [hb, ih hrest]
    · simp [hb]

theorem FrameShadowFactory.isRegistered_insert (factory : FrameShadowFactory) (widget : Nat) :
    (factory.insert widget).isRegistered widget = true := by
  unfold FrameShadowFactory.insert FrameShadowFactory.isRegistered
  by_cases h : widget ∈ factory._registeredWidgets <;> simp [h]

/-! ### Claims on `FrameShadow::updateState` -/

/-- C1 (counterexample).  Three calls in which an argument differs from the
stored value and no repaint is requested: the hover flag of a focused shadow,
the opacity while the mode is `AnimationNone`, and the mode set to
`AnimationHover` on a focused shadow. -/
theorem C1_counterexample :
    (focusedShadow._mouseOver ≠ true
      ∧ PaintCall.update ∉ (focusedShadow.updateState true true (-1) AnimationMode.AnimationNone).2)
    ∧ (focusedShadow._opacity ≠ 1
      ∧ PaintCall.update ∉ (focusedShadow.updateState true false 1 AnimationMode.AnimationNone).2)
    ∧ (focusedShadow._mode ≠ AnimationMode.AnimationHover
      ∧ PaintCall.update ∉
        (focusedShadow.updateState true false (-1) AnimationMode.AnimationHover).2) := by
  decide

/-- C1 (amended).  A call of `updateState` requests a repaint whenever the focus
flag differs from the stored one, or the hover flag differs and the new focus
flag is false, or the mode differs and the new mode is `AnimationNone`,
`AnimationFocus`, or `AnimationHover` with the new focus flag false, or the
opacity differs and the new mode is not `AnimationNone`. -/
theorem updateState_repaints_on_effective_change (s : FrameShadow) (f h : Bool) (o : Rat)
    (m : AnimationMode)
    (hdiff : s._hasFocus ≠ f
      ∨ (s._mouseOver ≠ h ∧ f = false)
      ∨ (s._mode ≠ m ∧ (m = AnimationMode.AnimationNone ∨ m = AnimationMode.AnimationFocus
          ∨ (m = AnimationMode.AnimationHover ∧ f = false)))
      ∨ (s._opacity ≠ o ∧ m ≠ AnimationMode.AnimationNone)) :
    PaintCall.update ∈ (s.updateState f h o m).2 := by
  have hrep := FrameShadow.updateState_repaint s f h o m
  have hch : s.changedBy f h o m = true := by
    simp only [FrameShadow.changedBy, Bool.or_eq_true, Bool.and_eq_true, decide_eq_true_eq,
      Bool.not_eq_true']
    tauto
  rw [hch] at hrep
  simpa [FrameShadow.requestsRepaint] using hrep

/-- Witness of C1 (amended): the mode of a freshly constructed shadow inside a
scroll area is set to `AnimationHover`. -/
theorem updateState_repaints_on_effective_change_witness :
    PaintCall.update ∈
      (scrollAreaShadow.updateState false false (-1) AnimationMode.AnimationHover).2 :=
  updateState_repaints_on_effective_change scrollAreaShadow false false (-1)
    AnimationMode.AnimationHover (by decide)

/-- C2.  A call of `updateState` with the stored focus, hover, opacity and mode
issues no paint request and returns the object unchanged; and for any arguments
a second identical call right after the first requests no repaint. -/
theorem updateState_idempotent :
    (∀ s : FrameShadow,
      s.updateState s._hasFocus s._mouseOver s._opacity s._mode = (s, []))
    ∧ (∀ (s : FrameShadow) (f h : Bool) (o : Rat) (m : AnimationMode),
      ((s.updateState f h o m).1.updateState f h o m).2 = []
      ∧ PaintCall.update ∉ ((s.updateState f h o m).1.updateState f h o m).2
      ∧ ((s.updateState f h o m).1.updateState f h o m).1 = (s.updateState f h o m).1) := by
  have key : ∀ s : FrameShadow,
      s.updateState s._hasFocus s._mouseOver s._opacity s._mode = (s, []) := by
    intro s
    have h1 := FrameShadow.updateState_fst s s._hasFocus s._mouseOver s._opacity s._mode
    have h2 : (s.updateState s._hasFocus s._mouseOver s._opacity s._mode).2 = [] := by
      simp only [FrameShadow.updateState, FrameShadow.updateFocus_eq, FrameShadow.updateHover_eq,
        FrameShadow.updateMode_eq, FrameShadow.updateOpacity_eq]
      apply FrameShadow.updateIfChanged_nil
      simp
    exact Prod.ext h1 h2
  refine ⟨key, ?_⟩
  intro s f h o m
  have hst : (s.updateState f h o m).1.updateState f h o m = ((s.updateState f h o m).1, []) := by
    have := key (s.updateState f h o m).1
    rw [FrameShadow.updateState_fst] at this ⊢
    exact this
  rw [hst]
  simp

/-- C3.  After `updateState(f, h, o, m)` the object holds `_hasFocus = f`,
`_mouseOver = h`, `_opacity = o` and `_mode = m`, whether or not a repaint was
requested, and every other member, the area and the parent rect among them, is
unchanged; a freshly constructed shadow has no focus, no hover, opacity `-1`
and mode `AnimationNone`. -/
theorem updateState_stores_arguments :
    (∀ (s : FrameShadow) (f h : Bool) (o : Rat) (m : AnimationMode),
      (s.updateState f h o m).1
          = { s with _hasFocus := f, _mouseOver := h, _opacity := o, _mode := m }
      ∧ (s.updateState f h o m).1._hasFocus = f
      ∧ (s.updateState f h o m).1._mouseOver = h
      ∧ (s.updateState f h o m).1._opacity = o
      ∧ (s.updateState f h o m).1._mode = m
      ∧ (s.updateState f h o m).1._area = s._area
      ∧ (s.updateState f h o m).1._parentRect = s._parentRect)
    ∧ (∀ area : ShadowArea,
      (FrameShadow.construct area)._hasFocus = false
      ∧ (FrameShadow.construct area)._mouseOver = false
      ∧ (FrameShadow.construct area)._opacity = -1
      ∧ (FrameShadow.construct area)._mode = AnimationMode.AnimationNone
      ∧ (FrameShadow.construct area)._area = area) := by
  constructor
  · intro s f h o m
    rw [FrameShadow.updateState_fst]
    exact ⟨rfl, rfl, rfl, rfl, rfl, rfl, rfl⟩
  · intro area
    exact ⟨rfl, rfl, rfl, rfl, rfl⟩

/-! ### Claims on `FrameShadowFactory::registerWidget` -/

/-- C9.  `registerWidget` returns true if and only if the widget is not null,
is not yet registered, is a `QFrame` that is no `QSplitter` and has frame style
`StyledPanel | Sunken`, or is no `QFrame` and inherits `KTextEditor::View`, and
no parent visited by the parent walk inherits `KHTMLView`.  When it returns true
the widget is registered afterwards; when it returns false the factory and the
widget are unchanged, so no shadow is installed. -/
theorem registerWidget_true_iff (factory : FrameShadowFactory) (widget : Option QWidget) :
    ((factory.registerWidget widget).1 = true ↔
      ∃ w, widget = some w
        ∧ factory.isRegistered w.ptr = false
        ∧ ((w.inherits "QFrame" = true ∧ w.inherits "QSplitter" = false
              ∧ w.frameStyle = ((QFrame.StyledPanel ||| QFrame.Sunken : Nat) : Int))
            ∨ (w.inherits "QFrame" = false ∧ w.inherits "KTextEditor::View" = true))
        ∧ ∀ a ∈ FrameShadowFactory.visitedParents w.ancestors, a.inherits "KHTMLView" = false)
    ∧ ((factory.registerWidget widget).1 = true →
      ∃ w, widget = some w ∧ (factory.registerWidget widget).2.1.isRegistered w.ptr = true)
    ∧ ((factory.registerWidget widget).1 = false →
      (factory.registerWidget widget).2 = (factory, widget)) := by
  cases widget with
  | none => simp [FrameShadowFactory.registerWidget]
  | some w =>
    have hwalk : (∀ a ∈ FrameShadowFactory.visitedParents w.ancestors,
        a.inherits "KHTMLView" = false)
        ↔ FrameShadowFactory.embeddedInKHTMLView w.ancestors = false := by
      rw [← Bool.not_eq_true (FrameShadowFactory.embeddedInKHTMLView w.ancestors),
        FrameShadowFactory.embeddedInKHTMLView_iff]
      simp
    simp only [Option.some.injEq, exists_eq_left', hwalk]
    unfold FrameShadowFactory.registerWidget
    cases hreg : factory.isRegistered w.ptr
    · cases hframe : w.inherits "QFrame"
      · cases hview : w.inherits "KTextEditor::View"
        · simp [hreg, hframe, hview]
        · cases hemb : FrameShadowFactory.embeddedInKHTMLView w.ancestors
          · simp [hreg, hframe, hview, hemb, FrameShadowFactory.isRegistered_insert]
          · simp [hreg, hframe, hview, hemb]
      · cases hsplit : w.inherits "QSplitter"
        · by_cases hstyle : w.frameStyle = ((QFrame.StyledPanel ||| QFrame.Sunken : Nat) : Int)
          · cases hemb : FrameShadowFactory.embeddedInKHTMLView w.ancestors
            · simp [hreg, hframe, hsplit, hemb, hstyle, FrameShadowFactory.isRegistered_insert]
            · simp [hreg, hframe, hsplit, hemb, hstyle]
          · simp [hreg, hframe, hsplit, hstyle]
        · simp [hreg, hframe, hsplit]
    · simp [hreg]

/-- Witness of C9: a sunken frame is registered by an empty factory, a frame
inside an embedded `KHTMLView` is left alone. -/
theorem registerWidget_true_iff_witness :
    (emptyFactory.registerWidget (some sunkenFrame)).2.1.isRegistered sunkenFrame.ptr = true
      ∧ (emptyFactory.registerWidget (some frameInKHTMLView)).2
        = (emptyFactory, some frameInKHTMLView) := by
  obtain ⟨w, hw, hreg⟩ :=
    (registerWidget_true_iff emptyFactory (some sunkenFrame)).2.1 (by decide)
  cases hw
  exact ⟨hreg, (registerWidget_true_iff emptyFactory (some frameInKHTMLView)).2.2 (by decide)⟩

/-- C10 (counterexample).  A frame whose parent is a top-level `KHTMLView`, and
a frame in a dialog whose parent is an embedded `KHTMLView`, have an ancestor
inheriting `KHTMLView`, yet `registerWidget` returns true and installs the four
shadows. -/
theorem C10_counterexample :
    ((∃ a ∈ frameInTopLevelKHTMLView.ancestors, a.inherits "KHTMLView" = true)
      ∧ (emptyFactory.registerWidget (some frameInTopLevelKHTMLView)).1 = true
      ∧ ((emptyFactory.registerWidget (some frameInTopLevelKHTMLView)).2.2.map
          fun w => w.children.filterMap fun c => c.asFrameShadow.map fun s => s._area)
        = some [ShadowArea.ShadowAreaTop, ShadowArea.ShadowAreaBottom,
            ShadowArea.ShadowAreaLeft, ShadowArea.ShadowAreaRight])
    ∧ ((∃ a ∈ frameInDialogOverKHTMLView.ancestors, a.inherits "KHTMLView" = true)
      ∧ (emptyFactory.registerWidget (some frameInDialogOverKHTMLView)).1 = true) := by
  decide

/-- C10 (amended).  For every widget that has an ancestor inheriting `KHTMLView`
such that neither this ancestor nor any ancestor between the widget and it is a
top-level widget, `registerWidget` returns false and leaves the factory and the
widget unchanged, so no shadow is installed. -/
theorem registerWidget_false_of_embedded (factory : FrameShadowFactory) (w : QWidget)
    (below above : List ParentWidget) (a : ParentWidget)
    (hchain : w.ancestors = below ++ a :: above)
    (hbelow : ∀ b ∈ below, b.isTopLevel = false)
    (ha : a.isTopLevel = false)
    (hk : a.inherits "KHTMLView" = true) :
    factory.registerWidget (some w) = (false, factory, some w) := by
  have hemb : FrameShadowFactory.embeddedInKHTMLView w.ancestors = true := by
    rw [hchain]
    exact FrameShadowFactory.embeddedInKHTMLView_of_reached below above a hbelow ha hk
  unfold FrameShadowFactory.registerWidget
  simp only [hemb]
  split_ifs <;> rfl

/-- Witness of C10 (amended): the frame inside a container inside an embedded
`KHTMLView`. -/
theorem registerWidget_false_of_embedded_witness :
    emptyFactory.registerWidget (some frameInKHTMLView)
      = (false, emptyFactory, some frameInKHTMLView) :=
  registerWidget_false_of_embedded emptyFactory frameInKHTMLView [containerWidget]
    [topLevelWindow]
    { ptr := 14, classes := ["KHTMLView", "QScrollArea", "QWidget", "QObject"],
      isTopLevel := false, viewport := some 15 }
    rfl (by decide) rfl (by decide)

end Breeze

namespace Lightly

/-! ### Claims on `BlurHelper` -/

/-- C4.  `blurRegion` returns the null (empty) region for every widget that is
not visible, and for every visible widget whose mask is not empty and is not
equal to the region of its full rect, whatever the widget's classes, palette and
children, the helper's flags and the configuration. -/
theorem blurRegion_null_of_hidden_or_masked (helper : BlurHelper) (config : StyleConfigData)
    (fillRegion : QPainterPath → QRegion) (widget : QWidget)
    (h : widget.isVisible = false
      ∨ (widget.isVisible = true ∧ widget.mask.isEmpty = false
          ∧ widget.mask.equal (QRegion.ofRect widget.rect) = false)) :
    helper.blurRegion config fillRegion widget = QRegion.null
      ∧ (helper.blurRegion config fillRegion widget).isEmpty = true := by
  have hnull : helper.blurRegion config fillRegion widget = QRegion.null := by
    unfold BlurHelper.blurRegion
    rcases h with h | ⟨hv, hm, he⟩
    · simp [h]
    · simp [hv, hm, he]
  rw [hnull]
  exact ⟨rfl, rfl⟩

/-- Witness of C4 on a visible window whose mask is a single pixel. -/
theorem blurRegion_null_of_hidden_or_masked_witness :
    titlebarHelper.blurRegion defaultConfig noFill maskedWindow = QRegion.null
      ∧ (titlebarHelper.blurRegion defaultConfig noFill maskedWindow).isEmpty = true :=
  blurRegion_null_of_hidden_or_masked titlebarHelper defaultConfig noFill maskedWindow
    (Or.inr (by decide))

/-- C5.  For a visible widget whose mask is empty or equal to its full rect, that
is neither a non-detached `QMenu` nor a `QComboBoxPrivateContainer`, and whose
`Window` colour has alpha below 255, `blurRegion` returns the region of the
widget's full rect, for every helper, configuration and set of children. -/
theorem blurRegion_translucent_window (helper : BlurHelper) (config : StyleConfigData)
    (fillRegion : QPainterPath → QRegion) (widget : QWidget)
    (hvisible : widget.isVisible = true)
    (hmask : widget.mask.isEmpty = true ∨ widget.mask.equal (QRegion.ofRect widget.rect) = true)
    (hmenu : ¬ (widget.inherits "QMenu" = true
      ∧ widget.testAttribute WidgetAttribute.WA_X11NetWmWindowTypeMenu = false))
    (hcombo : widget.inherits "QComboBoxPrivateContainer" = false)
    (halpha : widget.windowColorAlpha < 255) :
    helper.blurRegion config fillRegion widget = QRegion.ofRect widget.rect := by
  have hm : (!widget.mask.isEmpty && !widget.mask.equal (QRegion.ofRect widget.rect)) = false := by
    rcases hmask with h | h <;> simp [h]
  have hmenu2 : (widget.inherits "QMenu"
      && !widget.testAttribute WidgetAttribute.WA_X11NetWmWindowTypeMenu) = false := by
    cases h1 : widget.inherits "QMenu" <;>
      cases h2 : widget.testAttribute WidgetAttribute.WA_X11NetWmWindowTypeMenu <;>
      simp_all
  unfold BlurHelper.blurRegion
  simp only [hvisible, hm, hmenu2, hcombo, BlurHelper.windowRegion, halpha]
  simp

/-- Witness of C5 on a translucent main window with menu bar and toolbars. -/
theorem blurRegion_translucent_window_witness :
    titlebarHelper.blurRegion defaultConfig noFill translucentWindow
      = QRegion.ofRect translucentWindow.rect :=
  blurRegion_translucent_window titlebarHelper defaultConfig noFill translucentWindow
    (by decide) (Or.inl (by decide)) (by decide) (by decide) (by decide)

/-- C6.  For a visible widget whose mask is empty or equal to its full rect:
when it is a `QMenu` without the attribute `WA_X11NetWmWindowTypeMenu`, or
inherits `QComboBoxPrivateContainer`, `blurRegion` returns
`roundedRegion(rect, cornerRadius + 1, true, true, true, true)`, whatever the
alpha of its `Window` colour; when it is a `QMenu` with the attribute set (and,
as any `QMenu`, no `QComboBoxPrivateContainer`), `blurRegion` returns what the
ordinary window branch computes. -/
theorem blurRegion_menu (helper : BlurHelper) (config : StyleConfigData)
    (fillRegion : QPainterPath → QRegion) (widget : QWidget)
    (hvisible : widget.isVisible = true)
    (hmask : widget.mask.isEmpty = true ∨ widget.mask.equal (QRegion.ofRect widget.rect) = true) :
    (((widget.inherits "QMenu" = true
          ∧ widget.testAttribute WidgetAttribute.WA_X11NetWmWindowTypeMenu = false)
        ∨ widget.inherits "QComboBoxPrivateContainer" = true) →
      helper.blurRegion config fillRegion widget
        = roundedRegion fillRegion widget.rect (config.cornerRadius + 1) true true true true)
    ∧ (widget.inherits "QMenu" = true
        ∧ widget.testAttribute WidgetAttribute.WA_X11NetWmWindowTypeMenu = true
        ∧ widget.inherits "QComboBoxPrivateContainer" = false →
      helper.blurRegion config fillRegion widget = helper.windowRegion config widget) := by
  have hm : (!widget.mask.isEmpty && !widget.mask.equal (QRegion.ofRect widget.rect)) = false := by
    rcases hmask with h | h <;> simp [h]
  constructor
  · intro hkind
    have hk : ((widget.inherits "QMenu"
          && !widget.testAttribute WidgetAttribute.WA_X11NetWmWindowTypeMenu)
        || widget.inherits "QComboBoxPrivateContainer") = true := by
      rcases hkind with ⟨h1, h2⟩ | h3
      · simp [h1, h2]
      · simp [h3]
    unfold BlurHelper.blurRegion
    simp only [hvisible, hm, hk]
    simp
  · rintro ⟨h1, h2, h3⟩
    unfold BlurHelper.blurRegion
    simp only [hvisible, hm, h1, h2, h3]
    simp

/-- Witness of C6: a popup menu gets the rounded region, a detached menu the
region of the window branch. -/
theorem blurRegion_menu_witness :
    titlebarHelper.blurRegion defaultConfig noFill popupMenu
        = roundedRegion noFill popupMenu.rect (defaultConfig.cornerRadius + 1) true true true true
      ∧ titlebarHelper.blurRegion defaultConfig noFill detachedMenu
        = titlebarHelper.windowRegion defaultConfig detachedMenu :=
  ⟨(blurRegion_menu titlebarHelper defaultConfig noFill popupMenu (by decide)
      (Or.inl (by decide))).1 (Or.inl (by decide)),
    (blurRegion_menu titlebarHelper defaultConfig noFill detachedMenu (by decide)
      (Or.inl (by decide))).2 (by decide)⟩

/-- C7.  On the opaque-window branch of `blurRegion` with the translucent
title bar flag set, the title bar step adds to the region exactly these
rectangles, in this order: the rect of the menu widget of the `QMainWindow` when
that exists and is visible, then `QRect(pos, size)` of each direct-child toolbar
of the window that is visible, is horizontal or meets the Dolphin flag, and has
its `y` equal to `0` or to the menu bar height (the height of that visible menu
widget, `0` without one); the returned region is the result of the sidebar
step on this region. -/
theorem blurRegion_titlebar (helper : BlurHelper) (config : StyleConfigData)
    (fillRegion : QPainterPath → QRegion) (widget : QWidget)
    (hvisible : widget.isVisible = true)
    (hmask : widget.mask.isEmpty = true ∨ widget.mask.equal (QRegion.ofRect widget.rect) = true)
    (hmenu : ¬ (widget.inherits "QMenu" = true
      ∧ widget.testAttribute WidgetAttribute.WA_X11NetWmWindowTypeMenu = false))
    (hcombo : widget.inherits "QComboBoxPrivateContainer" = false)
    (halpha : ¬ widget.windowColorAlpha < 255)
    (htitlebar : helper._translucentTitlebar = true) :
    (∀ region : QRegion,
      helper.addTitlebar widget region = ⟨region.rects ++ titlebarRects helper widget⟩)
    ∧ helper.blurRegion config fillRegion widget
      = helper.addSidebar config widget ⟨titlebarRects helper widget⟩
    ∧ (∀ tb : ChildWidget,
      tb ∈ widget.windowToolBars.filter (titlebarToolbar helper widget) ↔
        tb ∈ widget.windowToolBars ∧ tb.isVisible = true
          ∧ (tb.orientation = Orientation.Horizontal ∨ helper._isDolphin = true)
          ∧ (tb.y = 0 ∨ tb.y = titlebarMenubarHeight widget)) := by
  have hm : (!widget.mask.isEmpty && !widget.mask.equal (QRegion.ofRect widget.rect)) = false := by
    rcases hmask with h | h <;> simp [h]
  have hmenu2 : (widget.inherits "QMenu"
      && !widget.testAttribute WidgetAttribute.WA_X11NetWmWindowTypeMenu) = false := by
    cases h1 : widget.inherits "QMenu" <;>
      cases h2 : widget.testAttribute WidgetAttribute.WA_X11NetWmWindowTypeMenu <;>
      simp_all
  refine ⟨fun region => BlurHelper.addTitlebar_eq helper widget region htitlebar, ?_, ?_⟩
  · unfold BlurHelper.blurRegion
    simp only [hvisible, hm, hmenu2, hcombo, BlurHelper.windowRegion, halpha]
    rw [BlurHelper.addTitlebar_eq helper widget QRegion.null htitlebar]
    simp [QRegion.null]
  · intro tb
    simp only [List.mem_filter, titlebarToolbar, Bool.and_eq_true, Bool.or_eq_true,
      decide_eq_true_eq]
    tauto

/-- Witness of C7 on the main window: of its four toolbars only the horizontal
one below the menu bar is added, after the menu bar. -/
theorem blurRegion_titlebar_witness :
    titlebarHelper.blurRegion defaultConfig noFill mainWindow
      = ⟨[QRect.ofSize 0 0 40 4, QRect.ofSize 0 4 40 3]⟩ := by
  have h := (blurRegion_titlebar titlebarHelper defaultConfig noFill mainWindow (by decide)
    (Or.inl (by decide)) (by decide) (by decide) (by decide) (by decide)).2.1
  rw [h]
  decide

/-- C8.  `BlurHelper::eventFilter` returns false for every object and every
event; a Hide, Show or Resize event on a widget makes exactly the calls of
`update( widget )`, and any other event, or any event on an object that is not
a widget, makes none. -/
theorem eventFilter_never_eats (helper : BlurHelper) (config : StyleConfigData)
    (fillRegion : QPainterPath → QRegion) :
    (∀ (object : QObject) (event : QEventType),
      (helper.eventFilter config fillRegion object event).1 = false)
    ∧ (∀ widget : QWidget,
      helper.eventFilter config fillRegion ⟨some widget⟩ QEventType.Hide
          = (false, helper.update config fillRegion widget)
      ∧ helper.eventFilter config fillRegion ⟨some widget⟩ QEventType.Show
          = (false, helper.update config fillRegion widget)
      ∧ helper.eventFilter config fillRegion ⟨some widget⟩ QEventType.Resize
          = (false, helper.update config fillRegion widget))
    ∧ (∀ event : QEventType, helper.eventFilter config fillRegion ⟨none⟩ event = (false, []))
    ∧ (∀ (object : QObject) (code : Nat),
      helper.eventFilter config fillRegion object (QEventType.Other code) = (false, [])) := by
  refine ⟨fun object event => rfl, fun widget => ⟨rfl, rfl, rfl⟩, ?_, fun object code => rfl⟩
  intro event
  cases event <;> rfl

end Lightly

namespace Breeze

/-! ### Claims on registration and removal -/

theorem FrameShadowFactory.remove_insert (factory : FrameShadowFactory) (widget : Nat)
    (h : factory.isRegistered widget = false) :
    (factory.insert widget).remove widget = factory := by
  rcases factory with ⟨l⟩
  have hmem : widget ∉ l := by simpa [FrameShadowFactory.isRegistered] using h
  have hfilter : l.filter (fun p => decide (p ≠ widget)) = l := by
    rw [List.filter_eq_self]
    intro a ha
    have : a ≠ widget := fun hc => hmem (hc ▸ ha)
    simpa using this
  have hne : ∀ a ∈ l, ¬ a = widget := fun a ha hc => hmem (hc ▸ ha)
  simpa [FrameShadowFactory.insert, FrameShadowFactory.remove, hmem, hfilter] using hne

theorem FrameShadowFactory.removeShadows_children (widget : QWidget) :
    ∀ c ∈ (FrameShadowFactory.removeShadows widget).children, c.asFrameShadow = none := by
  intro c hc
  simp only [FrameShadowFactory.removeShadows, QWidget.removeEventFilter, List.mem_filter] at hc
  simpa using hc.2

theorem FrameShadowFactory.installShadows_ptr (widget : QWidget) :
    (FrameShadowFactory.installShadows widget).ptr = widget.ptr := by
  simp [FrameShadowFactory.installShadows, FrameShadowFactory.installShadow,
    FrameShadowFactory.removeShadows, QWidget.installEventFilter, QWidget.removeEventFilter]

theorem FrameShadowFactory.installShadows_children (widget : QWidget) :
    ∃ c ∈ (FrameShadowFactory.installShadows widget).children, c.asFrameShadow ≠ none := by
  simp only [FrameShadowFactory.installShadows, FrameShadowFactory.installShadow,
    QWidget.removeEventFilter]
  exact ⟨_, List.mem_append_right _ (List.mem_singleton.2 rfl), by simp [QObject.asFrameShadow]⟩

/-- When `registerWidget` returns true it went through its last statements: the
widget was not registered, and the result holds the factory after `insert` and
the widget after `connect` and `installShadows`. -/
theorem FrameShadowFactory.registerWidget_of_true (factory : FrameShadowFactory) (w : QWidget)
    (h : (factory.registerWidget (some w)).1 = true) :
    factory.isRegistered w.ptr = false
    ∧ factory.registerWidget (some w)
      = (true, factory.insert w.ptr,
          some (FrameShadowFactory.installShadows
            { w with destroyedConnections := w.destroyedConnections + 1 })) := by
  unfold FrameShadowFactory.registerWidget at h ⊢
  simp only at h ⊢
  split_ifs at h ⊢ <;> simp_all

/-- C11.  When `registerWidget` returns true on a widget, a following
`unregisterWidget` on that widget gives back the factory as it was before the
registration and leaves the widget, which had some, without any `FrameShadow`
child;
`unregisterWidget` on a widget that is not registered changes neither the
factory nor the widget; and `widgetDestroyed( o )` leaves `o` unregistered and
every other address registered exactly when it was. -/
theorem unregisterWidget_undoes_registerWidget :
    (∀ (factory : FrameShadowFactory) (w w' : QWidget),
      (factory.registerWidget (some w)).1 = true →
      (factory.registerWidget (some w)).2.2 = some w' →
        ((factory.registerWidget (some w)).2.1.unregisterWidget w').1 = factory
        ∧ (∀ c ∈ ((factory.registerWidget (some w)).2.1.unregisterWidget w').2.children,
            c.asFrameShadow = none)
        ∧ (∃ c ∈ w'.children, c.asFrameShadow ≠ none))
    ∧ (∀ (factory : FrameShadowFactory) (w : QWidget),
      factory.isRegistered w.ptr = false → factory.unregisterWidget w = (factory, w))
    ∧ (∀ (factory : FrameShadowFactory) (o : Nat),
      (factory.widgetDestroyed o).isRegistered o = false
      ∧ ∀ p, p ≠ o → (factory.widgetDestroyed o).isRegistered p = factory.isRegistered p) := by
  refine ⟨?_, ?_, ?_⟩
  · intro factory w w' htrue hw'
    obtain ⟨hreg, heq⟩ := FrameShadowFactory.registerWidget_of_true factory w htrue
    rw [heq] at hw' ⊢
    simp only [Option.some.injEq] at hw'
    subst hw'
    have hptr := FrameShadowFactory.installShadows_ptr
      { w with destroyedConnections := w.destroyedConnections + 1 }
    simp only at hptr
    have hins : (factory.insert w.ptr).isRegistered w.ptr = true :=
      FrameShadowFactory.isRegistered_insert factory w.ptr
    refine ⟨?_, ?_, FrameShadowFactory.installShadows_children _⟩
    · simp only [FrameShadowFactory.unregisterWidget, hptr, hins, Bool.not_true]
      exact FrameShadowFactory.remove_insert factory w.ptr hreg
    · simp only [FrameShadowFactory.unregisterWidget, hptr, hins, Bool.not_true]
      exact FrameShadowFactory.removeShadows_children _
  · intro factory w h
    simp [FrameShadowFactory.unregisterWidget, h]
  · intro factory o
    constructor
    · simp [FrameShadowFactory.widgetDestroyed, FrameShadowFactory.remove,
        FrameShadowFactory.isRegistered, List.mem_filter]
    · intro p hp
      simp [FrameShadowFactory.widgetDestroyed, FrameShadowFactory.remove,
        FrameShadowFactory.isRegistered, List.mem_filter, hp]

/-- Witness of C11: a sunken frame is registered by the empty factory and
unregistered again. -/
theorem unregisterWidget_undoes_registerWidget_witness :
    ((emptyFactory.registerWidget (some sunkenFrame)).2.1.unregisterWidget
        (FrameShadowFactory.installShadows { sunkenFrame with destroyedConnections := 1 })).1
      = emptyFactory :=
  (unregisterWidget_undoes_registerWidget.1 emptyFactory sunkenFrame
    (FrameShadowFactory.installShadows { sunkenFrame with destroyedConnections := 1 })
    (by decide) (by decide)).1

/-! ### The exact repaint condition and the geometry of the shadows -/

/-- C15.  `updateState` requests a repaint exactly when the focus flag differs
from the stored one, or the hover flag differs and the new focus flag is false,
or the mode differs and the new mode is `AnimationNone`, `AnimationFocus`, or
`AnimationHover` with the new focus flag false, or the opacity differs and the
new mode is not `AnimationNone`.  In particular a call that changes only the
hover flag of a focused shadow, or only the opacity while the mode is
`AnimationNone`, requests no repaint. -/
theorem updateState_repaint_iff (s : FrameShadow) (f h : Bool) (o : Rat) (m : AnimationMode) :
    (PaintCall.update ∈ (s.updateState f h o m).2 ↔
      (s._hasFocus ≠ f
        ∨ (s._mouseOver ≠ h ∧ f = false)
        ∨ (s._mode ≠ m ∧ (m = AnimationMode.AnimationNone ∨ m = AnimationMode.AnimationFocus
            ∨ (m = AnimationMode.AnimationHover ∧ f = false)))
        ∨ (s._opacity ≠ o ∧ m ≠ AnimationMode.AnimationNone)))
    ∧ (s._hasFocus = true → s._mouseOver ≠ h →
        PaintCall.update ∉ (s.updateState true h s._opacity s._mode).2)
    ∧ (s._mode = AnimationMode.AnimationNone → s._opacity ≠ o →
        PaintCall.update ∉
          (s.updateState s._hasFocus s._mouseOver o AnimationMode.AnimationNone).2) := by
  have key : ∀ (f h : Bool) (o : Rat) (m : AnimationMode),
      PaintCall.update ∈ (s.updateState f h o m).2 ↔ s.changedBy f h o m = true := by
    intro f h o m
    rw [← FrameShadow.updateState_repaint]
    simp [FrameShadow.requestsRepaint]
  refine ⟨?_, ?_, ?_⟩
  · rw [key]
    simp only [FrameShadow.changedBy, Bool.or_eq_true, Bool.and_eq_true, decide_eq_true_eq,
      Bool.not_eq_true']
    tauto
  · intro hf hh
    rw [key]
    simp [FrameShadow.changedBy, hf]
  · intro hm ho
    rw [key]
    simp [FrameShadow.changedBy, hm]

/-- Witness of C15: the hover flag of the focused shadow is set, and the opacity
of a shadow at rest is changed; neither call requests a repaint. -/
theorem updateState_repaint_iff_witness :
    PaintCall.update ∉ (focusedShadow.updateState true true focusedShadow._opacity
        focusedShadow._mode).2
      ∧ PaintCall.update ∉ (scrollAreaShadow.updateState scrollAreaShadow._hasFocus
        scrollAreaShadow._mouseOver 1 AnimationMode.AnimationNone).2 :=
  ⟨(updateState_repaint_iff focusedShadow true true (-1) AnimationMode.AnimationNone).2.1
      (by decide) (by decide),
    (updateState_repaint_iff scrollAreaShadow false false 1 AnimationMode.AnimationNone).2.2
      (by decide) (by decide)⟩

theorem FrameShadow.construct_area (area : ShadowArea) :
    (FrameShadow.construct area)._area = area := rfl

/-- C16.  With `s = Frame_FrameRadius >= 0` and a rect `(x, y, w, h)` such that
`w - 2 >= 2s` and `h - 2 >= 2s`, `updateGeometry` sets the geometry of a shadow
to `(x+1, y+1, w-2, s)` for the top area, `(x+1, y+h-1-s, w-2, s)` for the
bottom, `(x+1, y+1+s, s, h-2-2s)` for the left and `(x+w-1-s, y+1+s, s, h-2-2s)`
for the right.  No point lies in two of these rectangles, and a point lies in
one of them exactly when it lies in the rect inset by one pixel and not in that
inset rect inset again by `s`. -/
theorem updateGeometry_ring (metrics : Metrics) (x y w h : Int)
    (hs : 0 ≤ metrics.Frame_FrameRadius)
    (hw : w - 2 ≥ 2 * metrics.Frame_FrameRadius)
    (hh : h - 2 ≥ 2 * metrics.Frame_FrameRadius) :
    (∀ shadow : FrameShadow,
      (shadow.updateGeometry metrics (QRect.ofSize x y w h)).geometry
        = match shadow._area with
          | ShadowArea.ShadowAreaTop =>
            QRect.ofSize (x + 1) (y + 1) (w - 2) metrics.Frame_FrameRadius
          | ShadowArea.ShadowAreaBottom =>
            QRect.ofSize (x + 1) (y + h - 1 - metrics.Frame_FrameRadius) (w - 2)
              metrics.Frame_FrameRadius
          | ShadowArea.ShadowAreaLeft =>
            QRect.ofSize (x + 1) (y + 1 + metrics.Frame_FrameRadius) metrics.Frame_FrameRadius
              (h - 2 - 2 * metrics.Frame_FrameRadius)
          | ShadowArea.ShadowAreaRight =>
            QRect.ofSize (x + w - 1 - metrics.Frame_FrameRadius)
              (y + 1 + metrics.Frame_FrameRadius) metrics.Frame_FrameRadius
              (h - 2 - 2 * metrics.Frame_FrameRadius))
    ∧ (∀ (a b : FrameShadow) (px py : Int), a._area ≠ b._area →
      ¬ ((a.updateGeometry metrics (QRect.ofSize x y w h)).geometry.contains px py = true
        ∧ (b.updateGeometry metrics (QRect.ofSize x y w h)).geometry.contains px py = true))
    ∧ (∀ (shadow : FrameShadow) (px py : Int),
      (shadow.updateGeometry metrics (QRect.ofSize x y w h)).geometry.contains px py = true →
        (QRect.ofSize (x + 1) (y + 1) (w - 2) (h - 2)).contains px py = true)
    ∧ (∀ px py : Int,
      (∃ area : ShadowArea,
        ((FrameShadow.construct area).updateGeometry metrics
          (QRect.ofSize x y w h)).geometry.contains px py = true)
      ↔ ((QRect.ofSize (x + 1) (y + 1) (w - 2) (h - 2)).contains px py = true
        ∧ (QRect.ofSize (x + 1 + metrics.Frame_FrameRadius) (y + 1 + metrics.Frame_FrameRadius)
            (w - 2 - 2 * metrics.Frame_FrameRadius)
            (h - 2 - 2 * metrics.Frame_FrameRadius)).contains px py = false)) := by
  have hgeo : ∀ shadow : FrameShadow,
      (shadow.updateGeometry metrics (QRect.ofSize x y w h)).geometry
        = match shadow._area with
          | ShadowArea.ShadowAreaTop =>
            QRect.ofSize (x + 1) (y + 1) (w - 2) metrics.Frame_FrameRadius
          | ShadowArea.ShadowAreaBottom =>
            QRect.ofSize (x + 1) (y + h - 1 - metrics.Frame_FrameRadius) (w - 2)
              metrics.Frame_FrameRadius
          | ShadowArea.ShadowAreaLeft =>
            QRect.ofSize (x + 1) (y + 1 + metrics.Frame_FrameRadius) metrics.Frame_FrameRadius
              (h - 2 - 2 * metrics.Frame_FrameRadius)
          | ShadowArea.ShadowAreaRight =>
            QRect.ofSize (x + w - 1 - metrics.Frame_FrameRadius)
              (y + 1 + metrics.Frame_FrameRadius) metrics.Frame_FrameRadius
              (h - 2 - 2 * metrics.Frame_FrameRadius) := by
    intro shadow
    cases harea : shadow._area <;>
      simp only [FrameShadow.updateGeometry, harea, QRect.ofSize, QRect.adjust, QRect.setHeight,
        QRect.setTop, QRect.setWidth, QRect.setLeft, QRect.bottom, QRect.right,
        QRect.mk.injEq, true_and, and_true] <;>
      omega
  refine ⟨hgeo, ?_, ?_, ?_⟩
  · intro a b px py hab
    rw [hgeo a, hgeo b]
    cases ha : a._area <;> cases hb : b._area <;>
      simp only [ha, hb, ne_eq, not_true_eq_false, reduceCtorEq, not_false_eq_true] at hab <;>
      simp only [QRect.ofSize, QRect.contains, Bool.and_eq_true, decide_eq_true_eq] <;>
      omega
  · intro shadow px py
    rw [hgeo shadow]
    cases ha : shadow._area <;>
      simp only [QRect.ofSize, QRect.contains, Bool.and_eq_true, decide_eq_true_eq] <;>
      omega
  · intro px py
    constructor
    · rintro ⟨area, harea⟩
      rw [hgeo] at harea
      cases area <;>
        simp only [FrameShadow.construct_area, QRect.ofSize, QRect.contains, Bool.and_eq_true,
          decide_eq_true_eq, Bool.and_eq_false_iff, decide_eq_false_iff_not] at harea ⊢ <;>
        omega
    · rintro ⟨hin, hout⟩
      simp only [QRect.ofSize, QRect.contains, Bool.and_eq_true, decide_eq_true_eq,
        Bool.and_eq_false_iff, decide_eq_false_iff_not] at hin hout
      by_cases htop : py ≤ y + metrics.Frame_FrameRadius
      · refine ⟨ShadowArea.ShadowAreaTop, ?_⟩
        rw [hgeo]
        simp only [FrameShadow.construct_area, QRect.ofSize, QRect.contains, Bool.and_eq_true,
          decide_eq_true_eq]
        omega
      · by_cases hbot : y + h - 1 - metrics.Frame_FrameRadius ≤ py
        · refine ⟨ShadowArea.ShadowAreaBottom, ?_⟩
          rw [hgeo]
          simp only [FrameShadow.construct_area, QRect.ofSize, QRect.contains, Bool.and_eq_true,
            decide_eq_true_eq]
          omega
        · by_cases hleft : px ≤ x + metrics.Frame_FrameRadius
          · refine ⟨ShadowArea.ShadowAreaLeft, ?_⟩
            rw [hgeo]
            simp only [FrameShadow.construct_area, QRect.ofSize, QRect.contains, Bool.and_eq_true,
              decide_eq_true_eq]
            omega
          · refine ⟨ShadowArea.ShadowAreaRight, ?_⟩
            rw [hgeo]
            simp only [FrameShadow.construct_area, QRect.ofSize, QRect.contains, Bool.and_eq_true,
              decide_eq_true_eq]
            omega

end Breeze

namespace Lightly

/-! ### Claims on `Button` -/

/-- The double product `200 * 0.3` is `60`, although the exact product of 200
and the double nearest to three tenths lies below 60. -/
theorem qrealToInt_threeTenths_of_200 :
    qrealToInt (roundToDouble (((200 : Int) : Rat) * threeTenths)) = 60
      ∧ ((200 : Int) : Rat) * threeTenths < 60 := by
  have hval : (((200 : Int) : Rat) * threeTenths) = 135107988821114875 / 2251799813685248 := by
    rw [threeTenths, Rat.mk'_eq_divInt, Rat.divInt_eq_div]
    norm_num
  have hpos : (0 : Rat) < |(135107988821114875 / 2251799813685248 : Rat)| := by norm_num
  have hlog : Int.log 2 |(135107988821114875 / 2251799813685248 : Rat)| = 5 := by
    apply le_antisymm
    · have : Int.log 2 |(135107988821114875 / 2251799813685248 : Rat)| < 6 :=
        (Int.lt_zpow_iff_log_lt (R := Rat) (b := 2) (by norm_num) hpos).1
          (by norm_num [abs_of_pos])
      omega
    · exact (Int.zpow_le_iff_le_log (R := Rat) (b := 2) (by norm_num) hpos).1
        (by norm_num [abs_of_pos])
  have hr : roundToDouble (((200 : Int) : Rat) * threeTenths) = ((60 : Int) : Rat) := by
    rw [hval]
    have hne : (135107988821114875 / 2251799813685248 : Rat) ≠ 0 := by norm_num
    simp only [roundToDouble, hne, if_false, hlog]
    have hk : max ((5 : Int) - 52) (-1074) = -47 := by decide
    rw [hk]
    have hy : (135107988821114875 / 2251799813685248 : Rat) / 2 ^ (-47 : Int)
        = 135107988821114875 / 16 := by
      rw [zpow_neg]
      norm_num
    rw [hy]
    have hfl : ⌊(135107988821114875 / 16 : Rat)⌋ = 8444249301319679 := by
      rw [Int.floor_eq_iff]
      norm_num
    have hrhe : roundHalfEven (135107988821114875 / 16 : Rat) = 8444249301319680 := by
      simp only [roundHalfEven, hfl]
      norm_num
    rw [hrhe, zpow_neg]
    norm_num
  refine ⟨?_, ?_⟩
  · rw [hr]
    simp [qrealToInt]
  · rw [hval]
    norm_num

/-- On a value that is not negative the conversion is the floor. -/
theorem qrealToInt_of_nonneg (v : Rat) (h0 : 0 ≤ v) : qrealToInt v = ⌊v⌋ := by
  unfold qrealToInt
  have hn : 0 ≤ v.num := Rat.num_nonneg.2 h0
  rw [Int.tdiv_eq_ediv hn (by exact_mod_cast Nat.zero_le _)]
  exact (Rat.floor_def' v).symm

/-- The conversion is odd: negative values are truncated towards zero too. -/
theorem qrealToInt_neg (v : Rat) : qrealToInt (-v) = - qrealToInt v := by
  simp [qrealToInt, Int.neg_tdiv]

theorem qrealToInt_bounds (v : Rat) (n : Int) (h0 : 0 ≤ v) (hn : v ≤ n) :
    0 ≤ qrealToInt v ∧ qrealToInt v ≤ n := by
  rw [qrealToInt_of_nonneg v h0]
  refine ⟨Int.floor_nonneg.2 h0, ?_⟩
  have h1 : ((⌊v⌋ : Int) : Rat) ≤ n := le_trans (Int.floor_le v) hn
  exact_mod_cast h1

theorem QColor.setAlpha_alpha (c : QColor) (a : Int) (h0 : 0 ≤ a) (h1 : a ≤ 255) :
    (c.setAlpha a).alpha = a := by
  simp only [QColor.setAlpha]
  omega

theorem qrealToInt_half_of_32 : qrealToInt (32 * halfOpacity) = 16 := by
  have h : (32 * halfOpacity : Rat) = ((16 : Int) : Rat) := by
    rw [halfOpacity, Rat.mk'_eq_divInt, Rat.divInt_eq_div]
    norm_num
  rw [h]
  simp [qrealToInt]

/-! ### Rounding to the nearest double -/

theorem roundHalfEven_intCast (z : Int) : roundHalfEven (z : Rat) = z := by
  simp [roundHalfEven]

theorem roundHalfEven_le (m : Rat) (B : Int) (h : m ≤ B) : roundHalfEven m ≤ B := by
  have hf : ⌊m⌋ ≤ B := Int.floor_le_iff.2 (by
    have : (B : Rat) < B + 1 := by linarith
    linarith)
  by_cases hlt : ⌊m⌋ < B
  · have : roundHalfEven m ≤ ⌊m⌋ + 1 := by
      simp only [roundHalfEven]
      split_ifs <;> omega
    omega
  · have heq : ⌊m⌋ = B := by omega
    have hm : m = B := le_antisymm h (by rw [← heq]; exact Int.floor_le m)
    rw [hm, roundHalfEven_intCast]

theorem roundHalfEven_ge (m : Rat) (B : Int) (h : (B : Rat) ≤ m) : B ≤ roundHalfEven m := by
  have hf : B ≤ ⌊m⌋ := Int.le_floor.2 h
  have : ⌊m⌋ ≤ roundHalfEven m := by
    simp only [roundHalfEven]
    split_ifs <;> omega
  omega

/-- Below `2 ^ 53` the last bit of a double weighs at most one. -/
theorem roundToDouble_exponent_nonpos (q : Rat) (hq : 0 < |q|) (h53 : |q| < 2 ^ 53) :
    max (Int.log 2 |q| - 52) (-1074) ≤ 0 := by
  have hlog : Int.log 2 |q| < 53 := by
    have h53z : |q| < ((2 : Nat) : Rat) ^ (53 : Int) := by
      have e : ((2 : Nat) : Rat) ^ (53 : Int) = 2 ^ 53 := by norm_num
      rw [e]
      exact h53
    exact (Int.lt_zpow_iff_log_lt (R := Rat) (b := 2) (by norm_num) (x := 53) hq).1 h53z
  omega

theorem roundToDouble_eq_of_nonpos (q : Rat) (hq : q ≠ 0) (n : Nat)
    (hk : max (Int.log 2 |q| - 52) (-1074) = -(n : Int)) :
    roundToDouble q = (roundHalfEven (q * 2 ^ n) : Rat) / 2 ^ n := by
  simp only [roundToDouble, hq, if_false, hk, zpow_neg, zpow_natCast]
  rw [div_inv_eq_mul, div_eq_mul_inv]

/-- Rounding does not cross an integer below `2 ^ 53`, nor zero. -/
theorem roundToDouble_bounds (q : Rat) (N : Int) (h0 : 0 ≤ q) (hN : q ≤ N)
    (h53 : N < 2 ^ 53) : 0 ≤ roundToDouble q ∧ roundToDouble q ≤ N := by
  by_cases hq : q = 0
  · subst hq
    simp only [roundToDouble, if_true]
    exact ⟨le_refl _, hN⟩
  · have hpos : 0 < q := lt_of_le_of_ne h0 (Ne.symm hq)
    have habs : |q| = q := abs_of_pos hpos
    have h53q : |q| < 2 ^ 53 := by
      rw [habs]
      have : (N : Rat) < 2 ^ 53 := by exact_mod_cast h53
      linarith
    have hk := roundToDouble_exponent_nonpos q (by rw [habs]; exact hpos) h53q
    obtain ⟨n, hn⟩ : ∃ n : Nat, max (Int.log 2 |q| - 52) (-1074) = -(n : Int) :=
      ⟨(-(max (Int.log 2 |q| - 52) (-1074))).toNat, by omega⟩
    rw [roundToDouble_eq_of_nonpos q hq n hn]
    have h2 : (0 : Rat) < 2 ^ n := by positivity
    constructor
    · apply div_nonneg _ h2.le
      have : (0 : Int) ≤ roundHalfEven (q * 2 ^ n) :=
        roundHalfEven_ge _ 0 (by push_cast; positivity)
      exact_mod_cast this
    · rw [div_le_iff₀ h2]
      have : roundHalfEven (q * 2 ^ n) ≤ N * 2 ^ n :=
        roundHalfEven_le _ _ (by push_cast; exact mul_le_mul_of_nonneg_right hN h2.le)
      exact_mod_cast this

/-- An integer below `2 ^ 53` is a double. -/
theorem roundToDouble_intCast (z : Int) (h53 : |z| < 2 ^ 53) : roundToDouble (z : Rat) = z := by
  by_cases hz : z = 0
  · subst hz
    simp [roundToDouble]
  · have hq : (z : Rat) ≠ 0 := by exact_mod_cast hz
    have hpos : 0 < |(z : Rat)| := abs_pos.2 hq
    have h53q : |(z : Rat)| < 2 ^ 53 := by
      have : ((|z| : Int) : Rat) < 2 ^ 53 := by exact_mod_cast h53
      simpa using this
    have hk := roundToDouble_exponent_nonpos (z : Rat) hpos h53q
    obtain ⟨n, hn⟩ : ∃ n : Nat, max (Int.log 2 |(z : Rat)| - 52) (-1074) = -(n : Int) :=
      ⟨(-(max (Int.log 2 |(z : Rat)| - 52) (-1074))).toNat, by omega⟩
    rw [roundToDouble_eq_of_nonpos (z : Rat) hq n hn]
    have h2 : (0 : Rat) < 2 ^ n := by positivity
    have hcast : (z : Rat) * 2 ^ n = ((z * 2 ^ n : Int) : Rat) := by push_cast; rfl
    rw [hcast, roundHalfEven_intCast]
    push_cast
    field_simp

theorem qrealToInt_half_of_200 :
    qrealToInt (roundToDouble (((200 : Int) : Rat) * halfOpacity)) = 100 := by
  have h : (((200 : Int) : Rat) * halfOpacity : Rat) = ((100 : Int) : Rat) := by
    rw [halfOpacity, Rat.mk'_eq_divInt, Rat.divInt_eq_div]
    norm_num
  rw [h, roundToDouble_intCast 100 (by norm_num)]
  simp [qrealToInt]

/-- C12.  For a button with a Lightly decoration whose type is not `Close`,
`backgroundColor` is decided in this order: if the button is pressed, or its
type is `KeepBelow`, `KeepAbove` or `Shade` and it is checked, the font colour
of the decoration with alpha 64; otherwise, if the hover animation is running,
the font colour with alpha `trunc(32 * opacity)` (the alpha channel holds this
value for every opacity between 0 and 1); otherwise, if hovered, the font colour
with alpha 32; otherwise the invalid colour.  Without a Lightly decoration
`backgroundColor` and `foregroundColor` are both invalid. -/
theorem backgroundColor_priority (lighter : QColor → QColor) (b : Button) :
    (∀ d : Decoration, b.decoration = DecorationPtr.lightly d →
      b.type ≠ DecorationButtonType.Close →
        ((b.pressed = true
            ∨ ((b.type = DecorationButtonType.KeepBelow ∨ b.type = DecorationButtonType.KeepAbove
                ∨ b.type = DecorationButtonType.Shade) ∧ b.checked = true)) →
          b.backgroundColor lighter = d.fontColor.setAlpha 64)
        ∧ (¬ (b.pressed = true
            ∨ ((b.type = DecorationButtonType.KeepBelow ∨ b.type = DecorationButtonType.KeepAbove
                ∨ b.type = DecorationButtonType.Shade) ∧ b.checked = true)) →
          (b.animationState = AnimationState.Running →
            b.backgroundColor lighter = d.fontColor.setAlpha (qrealToInt (32 * b.m_opacity))
            ∧ (0 ≤ b.m_opacity → b.m_opacity ≤ 1 →
              (b.backgroundColor lighter).alpha = qrealToInt (32 * b.m_opacity)))
          ∧ (b.animationState ≠ AnimationState.Running → b.hovered = true →
            b.backgroundColor lighter = d.fontColor.setAlpha 32)
          ∧ (b.animationState ≠ AnimationState.Running → b.hovered = false →
            b.backgroundColor lighter = QColor.invalid)))
    ∧ (b.decoration.asLightly = none →
        b.backgroundColor lighter = QColor.invalid ∧ b.foregroundColor = QColor.invalid
        ∧ (b.backgroundColor lighter).isValid = false ∧ b.foregroundColor.isValid = false) := by
  constructor
  · intro d hd ht
    have hclose : Button.closeBackgroundColor lighter b d.client = none := by
      simp [Button.closeBackgroundColor, ht]
    have hbg : b.backgroundColor lighter
        = if b.pressed
            || ((decide (b.type = DecorationButtonType.KeepBelow)
                || decide (b.type = DecorationButtonType.KeepAbove)
                || decide (b.type = DecorationButtonType.Shade)) && b.checked) then
            d.fontColor.setAlpha 64
          else if b.animationState = AnimationState.Running then
            d.fontColor.setAlpha (qrealToInt (32 * b.m_opacity))
          else if b.hovered then d.fontColor.setAlpha 32
          else QColor.invalid := by
      simp only [Button.backgroundColor, hd, DecorationPtr.asLightly, hclose]
    refine ⟨?_, ?_⟩
    · intro h1
      rw [hbg, if_pos]
      simpa [or_assoc] using h1
    · intro h1
      have h1' : ¬ ((b.pressed
            || ((decide (b.type = DecorationButtonType.KeepBelow)
                || decide (b.type = DecorationButtonType.KeepAbove)
                || decide (b.type = DecorationButtonType.Shade)) && b.checked)) = true) := by
        simpa [or_assoc] using h1
      rw [hbg, if_neg h1']
      refine ⟨?_, ?_, ?_⟩
      · intro hr
        rw [if_pos hr]
        refine ⟨rfl, fun h0 h1 => ?_⟩
        have hb := qrealToInt_bounds (32 * b.m_opacity) 32 (by linarith)
          (by push_cast; linarith)
        exact QColor.setAlpha_alpha _ _ hb.1 (by omega)
      · intro hr hh
        rw [if_neg hr, if_pos hh]
      · intro hr hh
        rw [if_neg hr, hh]
        simp
  · intro hnone
    have h1 : b.backgroundColor lighter = QColor.invalid := by
      simp only [Button.backgroundColor, hnone]
    have h2 : b.foregroundColor = QColor.invalid := by
      simp only [Button.foregroundColor, hnone]
    rw [h1, h2]
    exact ⟨rfl, rfl, rfl, rfl⟩

/-- Witness of C12: a minimize button animated at half opacity gets the font
colour with alpha 16. -/
theorem backgroundColor_priority_witness :
    animatedMinimize.backgroundColor id = ⟨true, 35, 38, 41, 16⟩ := by
  have h := ((((backgroundColor_priority id animatedMinimize).1 dialogDecoration rfl
    (by decide)).2 (by decide)).1 rfl).1
  have hop : animatedMinimize.m_opacity = halfOpacity := rfl
  rw [h, hop, qrealToInt_half_of_32]
  decide

/-- C13.  For a close button with a Lightly decoration, `backgroundColor` is the
lightened warning colour of the client if the button is pressed; otherwise, if
the hover animation is running, the warning colour with alpha
`trunc(alpha * opacity)`, the product being the one of doubles, rounded to the
nearest double (the alpha channel holds this value for every alpha in
`0 .. 255` and opacity between 0 and 1); otherwise, if hovered, the warning
colour unmodified;
and otherwise, neither pressed nor animated nor hovered, the invalid colour. -/
theorem backgroundColor_close (lighter : QColor → QColor) (b : Button) (d : Decoration)
    (hd : b.decoration = DecorationPtr.lightly d)
    (ht : b.type = DecorationButtonType.Close) :
    (b.pressed = true → b.backgroundColor lighter = lighter d.client.warningForeground)
    ∧ (b.pressed = false → b.animationState = AnimationState.Running →
      b.backgroundColor lighter
        = d.client.warningForeground.setAlpha
            (qrealToInt
              (roundToDouble ((d.client.warningForeground.alpha : Rat) * b.m_opacity)))
      ∧ (0 ≤ d.client.warningForeground.alpha → d.client.warningForeground.alpha ≤ 255 →
          0 ≤ b.m_opacity → b.m_opacity ≤ 1 →
          (b.backgroundColor lighter).alpha
            = qrealToInt
                (roundToDouble ((d.client.warningForeground.alpha : Rat) * b.m_opacity))))
    ∧ (b.pressed = false → b.animationState ≠ AnimationState.Running → b.hovered = true →
      b.backgroundColor lighter = d.client.warningForeground)
    ∧ (b.pressed = false → b.animationState ≠ AnimationState.Running → b.hovered = false →
      b.backgroundColor lighter = QColor.invalid
      ∧ (b.backgroundColor lighter).isValid = false) := by
  refine ⟨?_, ?_, ?_, ?_⟩
  · intro hp
    simp [Button.backgroundColor, Button.closeBackgroundColor, hd, DecorationPtr.asLightly, ht, hp]
  · intro hp hr
    have hbg : b.backgroundColor lighter
        = d.client.warningForeground.setAlpha
            (qrealToInt
              (roundToDouble ((d.client.warningForeground.alpha : Rat) * b.m_opacity))) := by
      simp [Button.backgroundColor, Button.closeBackgroundColor, hd, DecorationPtr.asLightly, ht,
        hp, hr]
    refine ⟨hbg, fun ha0 ha1 h0 h1 => ?_⟩
    have ha0q : (0 : Rat) ≤ d.client.warningForeground.alpha := by exact_mod_cast ha0
    have ha1q : (d.client.warningForeground.alpha : Rat) ≤ 255 := by exact_mod_cast ha1
    have hr := roundToDouble_bounds ((d.client.warningForeground.alpha : Rat) * b.m_opacity) 255
      (mul_nonneg ha0q h0) (by push_cast; nlinarith) (by norm_num)
    have hb := qrealToInt_bounds
      (roundToDouble ((d.client.warningForeground.alpha : Rat) * b.m_opacity)) 255 hr.1 hr.2
    rw [hbg]
    exact QColor.setAlpha_alpha _ _ hb.1 hb.2
  · intro hp hr hh
    simp [Button.backgroundColor, Button.closeBackgroundColor, hd, DecorationPtr.asLightly, ht,
      hp, hr, hh]
  · intro hp hr hh
    have : b.backgroundColor lighter = QColor.invalid := by
      simp [Button.backgroundColor, Button.closeBackgroundColor, hd, DecorationPtr.asLightly, ht,
        hp, hr, hh]
    rw [this]
    exact ⟨rfl, rfl⟩

/-- Witness of C13: the close button at rest has no background, the one
animated at half opacity has the warning colour with alpha 100 instead of 200,
and the one animated at opacity `0.3` has it with alpha 60. -/
theorem backgroundColor_close_witness :
    idleClose.backgroundColor id = QColor.invalid
      ∧ animatedClose.backgroundColor id = ⟨true, 218, 68, 83, 100⟩
      ∧ fadingClose.backgroundColor id = ⟨true, 218, 68, 83, 60⟩ := by
  refine ⟨((backgroundColor_close id idleClose dialogDecoration rfl rfl).2.2.2 rfl
    (by decide) rfl).1, ?_, ?_⟩
  · have h := ((backgroundColor_close id animatedClose dialogDecoration rfl rfl).2.1 rfl rfl).1
    have hop : animatedClose.m_opacity = halfOpacity := rfl
    have halpha : dialogDecoration.client.warningForeground.alpha = 200 := rfl
    rw [h, hop, halpha, qrealToInt_half_of_200]
    decide
  · have h := ((backgroundColor_close id fadingClose dialogDecoration rfl rfl).2.1 rfl rfl).1
    have hop : fadingClose.m_opacity = threeTenths := rfl
    have halpha : dialogDecoration.client.warningForeground.alpha = 200 := rfl
    rw [h, hop, halpha, qrealToInt_threeTenths_of_200.1]
    decide

/-- C14.  `Button::create` returns the null pointer if and only if the
decoration is not a Lightly decoration.  The visibility of a returned button of
type `Close`, `Maximize`, `Minimize`, `ContextHelp` or `Shade` is the client's
`isCloseable`, `isMaximizeable`, `isMinimizeable`, `providesContextHelp` or
`isShadeable`; for every other type it is the visibility the constructor left. -/
theorem create_visibility (defaults : ToolkitDefaults) (type : DecorationButtonType)
    (decoration : DecorationPtr) :
    (Button.create defaults type decoration = none ↔ decoration.asLightly = none)
    ∧ (∀ (d : Decoration) (b : Button), decoration = DecorationPtr.lightly d →
      Button.create defaults type decoration = some b →
        (type = DecorationButtonType.Close → b.visible = d.client.isCloseable)
        ∧ (type = DecorationButtonType.Maximize → b.visible = d.client.isMaximizeable)
        ∧ (type = DecorationButtonType.Minimize → b.visible = d.client.isMinimizeable)
        ∧ (type = DecorationButtonType.ContextHelp → b.visible = d.client.providesContextHelp)
        ∧ (type = DecorationButtonType.Shade → b.visible = d.client.isShadeable)
        ∧ (type ≠ DecorationButtonType.Close → type ≠ DecorationButtonType.Maximize →
            type ≠ DecorationButtonType.Minimize → type ≠ DecorationButtonType.ContextHelp →
            type ≠ DecorationButtonType.Shade →
            b.visible = (Button.construct defaults type d).visible
            ∧ b.visible = defaults.visible)) := by
  constructor
  · cases decoration <;> simp [Button.create, DecorationPtr.asLightly]
  · intro d b hd hb
    subst hd
    simp only [Button.create, DecorationPtr.asLightly, Option.some.injEq] at hb
    subst hb
    cases type <;> simp [Button.setVisible, Button.construct, Button.reconfigure,
      DecorationPtr.asLightly]

/-- Witness of C14: for the client that can be shaded but not maximized, the
shade button is created visible and the maximize button hidden. -/
theorem create_visibility_witness :
    (Button.create plainDefaults DecorationButtonType.Maximize
        (DecorationPtr.lightly dialogDecoration)).map (fun b => b.visible) = some false
      ∧ Button.create plainDefaults DecorationButtonType.Shade DecorationPtr.foreign = none := by
  refine ⟨?_, (create_visibility plainDefaults DecorationButtonType.Shade
    DecorationPtr.foreign).1.2 rfl⟩
  cases hb : Button.create plainDefaults DecorationButtonType.Maximize
      (DecorationPtr.lightly dialogDecoration) with
  | none => exact absurd hb (by decide)
  | some b =>
    have h := ((create_visibility plainDefaults DecorationButtonType.Maximize
      (DecorationPtr.lightly dialogDecoration)).2 dialogDecoration b rfl hb).2.1 rfl
    simp [h, dialogDecoration, dialogClient]

end Lightly

namespace Lightly

/-! ### The figures of `roundedRegion` -/

end Lightly

namespace Breeze

/-- Witness of C16: a frame of 20 by 12 with a frame radius of 3; the top shadow
is the strip `(1, 1, 18, 3)`. -/
theorem updateGeometry_ring_witness :
    ((FrameShadow.construct ShadowArea.ShadowAreaTop).updateGeometry ⟨3⟩
        (QRect.ofSize 0 0 20 12)).geometry
      = QRect.ofSize 1 1 18 3 :=
  (updateGeometry_ring ⟨3⟩ 0 0 20 12 (by decide) (by decide) (by decide)).1
    (FrameShadow.construct ShadowArea.ShadowAreaTop)

end Breeze
